import Mathlib

/-!
A verification development for the client-side XMPP stream engine
(`ClientBase`): a shallow embedding of its SASL machinery (SCRAM-SHA-1,
DIGEST-MD5, PLAIN), stream-header version checking, IQ dispatch and
correlation, the stream-management resend queue, the outbound transform
chain, and `disconnect`, together with theorems about the embedded
definitions.

C++ `std::string` values are modelled as `List Nat` byte strings (each
entry < 256 for genuine byte data); machine integers are modelled as
`Nat`/`Int` with explicit reduction `% 2^32` where 32-bit overflow
matters.  Hash computations are written over `Nat`-packed words (with
bare `Nat.add`/`Nat.mul`/... applications and an explicit call-by-value
`force` combinator) so that evaluation by the kernel stays feasible;
the byte-level interface of every hash is an ordinary byte string.
-/

set_option maxRecDepth 1000000

namespace Gloox


/-- Byte strings: the model of C++ `std::string`. -/
abbrev Bytes := List Nat

/-- ASCII view of a Lean string literal as a byte string. -/
def ascii (s : String) : Bytes := s.data.map Char.toNat

/-- All entries of a byte string are genuine bytes. -/
def ByteOK (l : Bytes) : Prop := ∀ b ∈ l, b < 256

/-- 2^32, the modulus for 32-bit words. -/
def M32 : Nat := 4294967296

/-- 2^512, the modulus for the packed SHA-1 schedule window. -/
def M512 : Nat := 1 <<< 512

/-- 2^160 (packing factor for the hash state). -/
def P160 : Nat := 1 <<< 160

/-- 2^128. -/
def P128 : Nat := 1 <<< 128

/-- 2^96. -/
def P96 : Nat := 1 <<< 96

/-- 2^64. -/
def P64 : Nat := 1 <<< 64

/-- 2^352 (packing factor for a 20-byte message in a padded block). -/
def P352 : Nat := 1 <<< 352

/-- The 160-bit mask. -/
def MASK160 : Nat := (1 <<< 160) - 1

/-- Call-by-value sequencing: `force x k = k x`, written as a `Nat.rec`
whose major premise is `x`, so that the kernel fully evaluates `x` to a
literal before continuing with `k`.  This keeps the reduction stack
depth of long iteration chains constant. -/
def force (x : Nat) (k : Nat → Nat) : Nat :=
  Nat.rec (k 0) (fun m _ => k (m + 1)) x

/-! ## SHA-1

Modelled from the spec: the `SHA` class (`sha.h`) used by
`ClientBase::hmac` and `ClientBase::hi` is not part of the given
source; it is the standard SHA-1 hash (RFC 3174), which the SCRAM
description of the spec (RFC 5802) prescribes.  Hash states are
packed big-endian into a single `Nat` (`a,b,c,d,e` at 32 bits each),
message blocks into a 512-bit `Nat`, so that the round computations
run on machine-sized `Nat` literals. -/

/-! ### The 80 SHA-1 rounds

Each round is a function taking the five 32-bit working registers
`a`..`e` and the sliding 16-word schedule window `w1` (oldest) ..
`w16` (newest) as separate arguments, and calling the next round with
the registers rotated: `a := t`, `b := a`, `c := b rotated left 30`,
`d := c`, `e := d`.  Rounds 1-16 read their message word directly from
the window; later rounds extend the schedule with
`rotl1 (w14 xor w9 xor w3 xor w1)` and slide the window.  `force`
makes each round's `t` concrete, so evaluation runs at constant stack
depth.  Round 80 packs the registers into the 160-bit result. -/

def sha1R80 (a b c d e w1 _w2 w3 _w4 _w5 _w6 _w7 _w8 w9 _w10 _w11 _w12 _w13 w14 _w15 _w16 : Nat) : Nat :=
  let x := Nat.xor (Nat.xor w14 w9) (Nat.xor w3 w1)
  let w := Nat.add (Nat.land (Nat.shiftLeft x 1) 4294967295) (Nat.shiftRight x 31)
  force (Nat.mod (Nat.add (Nat.add (Nat.add (Nat.add (Nat.add (Nat.land (Nat.shiftLeft a 5) 4294967295) (Nat.shiftRight a 27)) (Nat.xor (Nat.xor b c) d)) e) 3395469782) w) 4294967296) (fun t => Nat.add (Nat.mul t P128) (Nat.add (Nat.mul a P96) (Nat.add (Nat.mul (Nat.add (Nat.land (Nat.shiftLeft b 30) 4294967295) (Nat.shiftRight b 2)) P64) (Nat.add (Nat.mul c 4294967296) d))))

def sha1R79 (a b c d e w1 w2 w3 w4 w5 w6 w7 w8 w9 w10 w11 w12 w13 w14 w15 w16 : Nat) : Nat :=
  let x := Nat.xor (Nat.xor w14 w9) (Nat.xor w3 w1)
  let w := Nat.add (Nat.land (Nat.shiftLeft x 1) 4294967295) (Nat.shiftRight x 31)
  force (Nat.mod (Nat.add (Nat.add (Nat.add (Nat.add (Nat.add (Nat.land (Nat.shiftLeft a 5) 4294967295) (Nat.shiftRight a 27)) (Nat.xor (Nat.xor b c) d)) e) 3395469782) w) 4294967296) (fun t => sha1R80 t a (Nat.add (Nat.land (Nat.shiftLeft b 30) 4294967295) (Nat.shiftRight b 2)) c d w2 w3 w4 w5 w6 w7 w8 w9 w10 w11 w12 w13 w14 w15 w16 w)

def sha1R78 (a b c d e w1 w2 w3 w4 w5 w6 w7 w8 w9 w10 w11 w12 w13 w14 w15 w16 : Nat) : Nat :=
  let x := Nat.xor (Nat.xor w14 w9) (Nat.xor w3 w1)
  let w := Nat.add (Nat.land (Nat.shiftLeft x 1) 4294967295) (Nat.shiftRight x 31)
  force (Nat.mod (Nat.add (Nat.add (Nat.add (Nat.add (Nat.add (Nat.land (Nat.shiftLeft a 5) 4294967295) (Nat.shiftRight a 27)) (Nat.xor (Nat.xor b c) d)) e) 3395469782) w) 4294967296) (fun t => sha1R79 t a (Nat.add (Nat.land (Nat.shiftLeft b 30) 4294967295) (Nat.shiftRight b 2)) c d w2 w3 w4 w5 w6 w7 w8 w9 w10 w11 w12 w13 w14 w15 w16 w)

def sha1R77 (a b c d e w1 w2 w3 w4 w5 w6 w7 w8 w9 w10 w11 w12 w13 w14 w15 w16 : Nat) : Nat :=
  let x := Nat.xor (Nat.xor w14 w9) (Nat.xor w3 w1)
  let w := Nat.add (Nat.land (Nat.shiftLeft x 1) 4294967295) (Nat.shiftRight x 31)
  force (Nat.mod (Nat.add (Nat.add (Nat.add (Nat.add (Nat.add (Nat.land (Nat.shiftLeft a 5) 4294967295) (Nat.shiftRight a 27)) (Nat.xor (Nat.xor b c) d)) e) 3395469782) w) 4294967296) (fun t => sha1R78 t a (Nat.add (Nat.land (Nat.shiftLeft b 30) 4294967295) (Nat.shiftRight b 2)) c d w2 w3 w4 w5 w6 w7 w8 w9 w10 w11 w12 w13 w14 w15 w16 w)

def sha1R76 (a b c d e w1 w2 w3 w4 w5 w6 w7 w8 w9 w10 w11 w12 w13 w14 w15 w16 : Nat) : Nat :=
  let x := Nat.xor (Nat.xor w14 w9) (Nat.xor w3 w1)
  let w := Nat.add (Nat.land (Nat.shiftLeft x 1) 4294967295) (Nat.shiftRight x 31)
  force (Nat.mod (Nat.add (Nat.add (Nat.add (Nat.add (Nat.add (Nat.land (Nat.shiftLeft a 5) 4294967295) (Nat.shiftRight a 27)) (Nat.xor (Nat.xor b c) d)) e) 3395469782) w) 4294967296) (fun t => sha1R77 t a (Nat.add (Nat.land (Nat.shiftLeft b 30) 4294967295) (Nat.shiftRight b 2)) c d w2 w3 w4 w5 w6 w7 w8 w9 w10 w11 w12 w13 w14 w15 w16 w)

def sha1R75 (a b c d e w1 w2 w3 w4 w5 w6 w7 w8 w9 w10 w11 w12 w13 w14 w15 w16 : Nat) : Nat :=
  let x := Nat.xor (Nat.xor w14 w9) (Nat.xor w3 w1)
  let w := Nat.add (Nat.land (Nat.shiftLeft x 1) 4294967295) (Nat.shiftRight x 31)
  force (Nat.mod (Nat.add (Nat.add (Nat.add (Nat.add (Nat.add (Nat.land (Nat.shiftLeft a 5) 4294967295) (Nat.shiftRight a 27)) (Nat.xor (Nat.xor b c) d)) e) 3395469782) w) 4294967296) (fun t => sha1R76 t a (Nat.add (Nat.land (Nat.shiftLeft b 30) 4294967295) (Nat.shiftRight b 2)) c d w2 w3 w4 w5 w6 w7 w8 w9 w10 w11 w12 w13 w14 w15 w16 w)

def sha1R74 (a b c d e w1 w2 w3 w4 w5 w6 w7 w8 w9 w10 w11 w12 w13 w14 w15 w16 : Nat) : Nat :=
  let x := Nat.xor (Nat.xor w14 w9) (Nat.xor w3 w1)
  let w := Nat.add (Nat.land (Nat.shiftLeft x 1) 4294967295) (Nat.shiftRight x 31)
  force (Nat.mod (Nat.add (Nat.add (Nat.add (Nat.add (Nat.add (Nat.land (Nat.shiftLeft a 5) 4294967295) (Nat.shiftRight a 27)) (Nat.xor (Nat.xor b c) d)) e) 3395469782) w) 4294967296) (fun t => sha1R75 t a (Nat.add (Nat.land (Nat.shiftLeft b 30) 4294967295) (Nat.shiftRight b 2)) c d w2 w3 w4 w5 w6 w7 w8 w9 w10 w11 w12 w13 w14 w15 w16 w)

def sha1R73 (a b c d e w1 w2 w3 w4 w5 w6 w7 w8 w9 w10 w11 w12 w13 w14 w15 w16 : Nat) : Nat :=
  let x := Nat.xor (Nat.xor w14 w9) (Nat.xor w3 w1)
  let w := Nat.add (Nat.land (Nat.shiftLeft x 1) 4294967295) (Nat.shiftRight x 31)
  force (Nat.mod (Nat.add (Nat.add (Nat.add (Nat.add (Nat.add (Nat.land (Nat.shiftLeft a 5) 4294967295) (Nat.shiftRight a 27)) (Nat.xor (Nat.xor b c) d)) e) 3395469782) w) 4294967296) (fun t => sha1R74 t a (Nat.add (Nat.land (Nat.shiftLeft b 30) 4294967295) (Nat.shiftRight b 2)) c d w2 w3 w4 w5 w6 w7 w8 w9 w10 w11 w12 w13 w14 w15 w16 w)

def sha1R72 (a b c d e w1 w2 w3 w4 w5 w6 w7 w8 w9 w10 w11 w12 w13 w14 w15 w16 : Nat) : Nat :=
  let x := Nat.xor (Nat.xor w14 w9) (Nat.xor w3 w1)
  let w := Nat.add (Nat.land (Nat.shiftLeft x 1) 4294967295) (Nat.shiftRight x 31)
  force (Nat.mod (Nat.add (Nat.add (Nat.add (Nat.add (Nat.add (Nat.land (Nat.shiftLeft a 5) 4294967295) (Nat.shiftRight a 27)) (Nat.xor (Nat.xor b c) d)) e) 3395469782) w) 4294967296) (fun t => sha1R73 t a (Nat.add (Nat.land (Nat.shiftLeft b 30) 4294967295) (Nat.shiftRight b 2)) c d w2 w3 w4 w5 w6 w7 w8 w9 w10 w11 w12 w13 w14 w15 w16 w)

def sha1R71 (a b c d e w1 w2 w3 w4 w5 w6 w7 w8 w9 w10 w11 w12 w13 w14 w15 w16 : Nat) : Nat :=
  let x := Nat.xor (Nat.xor w14 w9) (Nat.xor w3 w1)
  let w := Nat.add (Nat.land (Nat.shiftLeft x 1) 4294967295) (Nat.shiftRight x 31)
  force (Nat.mod (Nat.add (Nat.add (Nat.add (Nat.add (Nat.add (Nat.land (Nat.shiftLeft a 5) 4294967295) (Nat.shiftRight a 27)) (Nat.xor (Nat.xor b c) d)) e) 3395469782) w) 4294967296) (fun t => sha1R72 t a (Nat.add (Nat.land (Nat.shiftLeft b 30) 4294967295) (Nat.shiftRight b 2)) c d w2 w3 w4 w5 w6 w7 w8 w9 w10 w11 w12 w13 w14 w15 w16 w)

def sha1R70 (a b c d e w1 w2 w3 w4 w5 w6 w7 w8 w9 w10 w11 w12 w13 w14 w15 w16 : Nat) : Nat :=
  let x := Nat.xor (Nat.xor w14 w9) (Nat.xor w3 w1)
  let w := Nat.add (Nat.land (Nat.shiftLeft x 1) 4294967295) (Nat.shiftRight x 31)
  force (Nat.mod (Nat.add (Nat.add (Nat.add (Nat.add (Nat.add (Nat.land (Nat.shiftLeft a 5) 4294967295) (Nat.shiftRight a 27)) (Nat.xor (Nat.xor b c) d)) e) 3395469782) w) 4294967296) (fun t => sha1R71 t a (Nat.add (Nat.land (Nat.shiftLeft b 30) 4294967295) (Nat.shiftRight b 2)) c d w2 w3 w4 w5 w6 w7 w8 w9 w10 w11 w12 w13 w14 w15 w16 w)

def sha1R69 (a b c d e w1 w2 w3 w4 w5 w6 w7 w8 w9 w10 w11 w12 w13 w14 w15 w16 : Nat) : Nat :=
  let x := Nat.xor (Nat.xor w14 w9) (Nat.xor w3 w1)
  let w := Nat.add (Nat.land (Nat.shiftLeft x 1) 4294967295) (Nat.shiftRight x 31)
  force (Nat.mod (Nat.add (Nat.add (Nat.add (Nat.add (Nat.add (Nat.land (Nat.shiftLeft a 5) 4294967295) (Nat.shiftRight a 27)) (Nat.xor (Nat.xor b c) d)) e) 3395469782) w) 4294967296) (fun t => sha1R70 t a (Nat.add (Nat.land (Nat.shiftLeft b 30) 4294967295) (Nat.shiftRight b 2)) c d w2 w3 w4 w5 w6 w7 w8 w9 w10 w11 w12 w13 w14 w15 w16 w)

def sha1R68 (a b c d e w1 w2 w3 w4 w5 w6 w7 w8 w9 w10 w11 w12 w13 w14 w15 w16 : Nat) : Nat :=
  let x := Nat.xor (Nat.xor w14 w9) (Nat.xor w3 w1)
  let w := Nat.add (Nat.land (Nat.shiftLeft x 1) 4294967295) (Nat.shiftRight x 31)
  force (Nat.mod (Nat.add (Nat.add (Nat.add (Nat.add (Nat.add (Nat.land (Nat.shiftLeft a 5) 4294967295) (Nat.shiftRight a 27)) (Nat.xor (Nat.xor b c) d)) e) 3395469782) w) 4294967296) (fun t => sha1R69 t a (Nat.add (Nat.land (Nat.shiftLeft b 30) 4294967295) (Nat.shiftRight b 2)) c d w2 w3 w4 w5 w6 w7 w8 w9 w10 w11 w12 w13 w14 w15 w16 w)

def sha1R67 (a b c d e w1 w2 w3 w4 w5 w6 w7 w8 w9 w10 w11 w12 w13 w14 w15 w16 : Nat) : Nat :=
  let x := Nat.xor (Nat.xor w14 w9) (Nat.xor w3 w1)
  let w := Nat.add (Nat.land (Nat.shiftLeft x 1) 4294967295) (Nat.shiftRight x 31)
  force (Nat.mod (Nat.add (Nat.add (Nat.add (Nat.add (Nat.add (Nat.land (Nat.shiftLeft a 5) 4294967295) (Nat.shiftRight a 27)) (Nat.xor (Nat.xor b c) d)) e) 3395469782) w) 4294967296) (fun t => sha1R68 t a (Nat.add (Nat.land (Nat.shiftLeft b 30) 4294967295) (Nat.shiftRight b 2)) c d w2 w3 w4 w5 w6 w7 w8 w9 w10 w11 w12 w13 w14 w15 w16 w)

def sha1R66 (a b c d e w1 w2 w3 w4 w5 w6 w7 w8 w9 w10 w11 w12 w13 w14 w15 w16 : Nat) : Nat :=
  let x := Nat.xor (Nat.xor w14 w9) (Nat.xor w3 w1)
  let w := Nat.add (Nat.land (Nat.shiftLeft x 1) 4294967295) (Nat.shiftRight x 31)
  force (Nat.mod (Nat.add (Nat.add (Nat.add (Nat.add (Nat.add (Nat.land (Nat.shiftLeft a 5) 4294967295) (Nat.shiftRight a 27)) (Nat.xor (Nat.xor b c) d)) e) 3395469782) w) 4294967296) (fun t => sha1R67 t a (Nat.add (Nat.land (Nat.shiftLeft b 30) 4294967295) (Nat.shiftRight b 2)) c d w2 w3 w4 w5 w6 w7 w8 w9 w10 w11 w12 w13 w14 w15 w16 w)

def sha1R65 (a b c d e w1 w2 w3 w4 w5 w6 w7 w8 w9 w10 w11 w12 w13 w14 w15 w16 : Nat) : Nat :=
  let x := Nat.xor (Nat.xor w14 w9) (Nat.xor w3 w1)
  let w := Nat.add (Nat.land (Nat.shiftLeft x 1) 4294967295) (Nat.shiftRight x 31)
  force (Nat.mod (Nat.add (Nat.add (Nat.add (Nat.add (Nat.add (Nat.land (Nat.shiftLeft a 5) 4294967295) (Nat.shiftRight a 27)) (Nat.xor (Nat.xor b c) d)) e) 3395469782) w) 4294967296) (fun t => sha1R66 t a (Nat.add (Nat.land (Nat.shiftLeft b 30) 4294967295) (Nat.shiftRight b 2)) c d w2 w3 w4 w5 w6 w7 w8 w9 w10 w11 w12 w13 w14 w15 w16 w)

def sha1R64 (a b c d e w1 w2 w3 w4 w5 w6 w7 w8 w9 w10 w11 w12 w13 w14 w15 w16 : Nat) : Nat :=
  let x := Nat.xor (Nat.xor w14 w9) (Nat.xor w3 w1)
  let w := Nat.add (Nat.land (Nat.shiftLeft x 1) 4294967295) (Nat.shiftRight x 31)
  force (Nat.mod (Nat.add (Nat.add (Nat.add (Nat.add (Nat.add (Nat.land (Nat.shiftLeft a 5) 4294967295) (Nat.shiftRight a 27)) (Nat.xor (Nat.xor b c) d)) e) 3395469782) w) 4294967296) (fun t => sha1R65 t a (Nat.add (Nat.land (Nat.shiftLeft b 30) 4294967295) (Nat.shiftRight b 2)) c d w2 w3 w4 w5 w6 w7 w8 w9 w10 w11 w12 w13 w14 w15 w16 w)

def sha1R63 (a b c d e w1 w2 w3 w4 w5 w6 w7 w8 w9 w10 w11 w12 w13 w14 w15 w16 : Nat) : Nat :=
  let x := Nat.xor (Nat.xor w14 w9) (Nat.xor w3 w1)
  let w := Nat.add (Nat.land (Nat.shiftLeft x 1) 4294967295) (Nat.shiftRight x 31)
  force (Nat.mod (Nat.add (Nat.add (Nat.add (Nat.add (Nat.add (Nat.land (Nat.shiftLeft a 5) 4294967295) (Nat.shiftRight a 27)) (Nat.xor (Nat.xor b c) d)) e) 3395469782) w) 4294967296) (fun t => sha1R64 t a (Nat.add (Nat.land (Nat.shiftLeft b 30) 4294967295) (Nat.shiftRight b 2)) c d w2 w3 w4 w5 w6 w7 w8 w9 w10 w11 w12 w13 w14 w15 w16 w)

def sha1R62 (a b c d e w1 w2 w3 w4 w5 w6 w7 w8 w9 w10 w11 w12 w13 w14 w15 w16 : Nat) : Nat :=
  let x := Nat.xor (Nat.xor w14 w9) (Nat.xor w3 w1)
  let w := Nat.add (Nat.land (Nat.shiftLeft x 1) 4294967295) (Nat.shiftRight x 31)
  force (Nat.mod (Nat.add (Nat.add (Nat.add (Nat.add (Nat.add (Nat.land (Nat.shiftLeft a 5) 4294967295) (Nat.shiftRight a 27)) (Nat.xor (Nat.xor b c) d)) e) 3395469782) w) 4294967296) (fun t => sha1R63 t a (Nat.add (Nat.land (Nat.shiftLeft b 30) 4294967295) (Nat.shiftRight b 2)) c d w2 w3 w4 w5 w6 w7 w8 w9 w10 w11 w12 w13 w14 w15 w16 w)

def sha1R61 (a b c d e w1 w2 w3 w4 w5 w6 w7 w8 w9 w10 w11 w12 w13 w14 w15 w16 : Nat) : Nat :=
  let x := Nat.xor (Nat.xor w14 w9) (Nat.xor w3 w1)
  let w := Nat.add (Nat.land (Nat.shiftLeft x 1) 4294967295) (Nat.shiftRight x 31)
  force (Nat.mod (Nat.add (Nat.add (Nat.add (Nat.add (Nat.add (Nat.land (Nat.shiftLeft a 5) 4294967295) (Nat.shiftRight a 27)) (Nat.xor (Nat.xor b c) d)) e) 3395469782) w) 4294967296) (fun t => sha1R62 t a (Nat.add (Nat.land (Nat.shiftLeft b 30) 4294967295) (Nat.shiftRight b 2)) c d w2 w3 w4 w5 w6 w7 w8 w9 w10 w11 w12 w13 w14 w15 w16 w)

def sha1R60 (a b c d e w1 w2 w3 w4 w5 w6 w7 w8 w9 w10 w11 w12 w13 w14 w15 w16 : Nat) : Nat :=
  let x := Nat.xor (Nat.xor w14 w9) (Nat.xor w3 w1)
  let w := Nat.add (Nat.land (Nat.shiftLeft x 1) 4294967295) (Nat.shiftRight x 31)
  force (Nat.mod (Nat.add (Nat.add (Nat.add (Nat.add (Nat.add (Nat.land (Nat.shiftLeft a 5) 4294967295) (Nat.shiftRight a 27)) (Nat.lor (Nat.lor (Nat.land b c) (Nat.land b d)) (Nat.land c d))) e) 2400959708) w) 4294967296) (fun t => sha1R61 t a (Nat.add (Nat.land (Nat.shiftLeft b 30) 4294967295) (Nat.shiftRight b 2)) c d w2 w3 w4 w5 w6 w7 w8 w9 w10 w11 w12 w13 w14 w15 w16 w)

def sha1R59 (a b c d e w1 w2 w3 w4 w5 w6 w7 w8 w9 w10 w11 w12 w13 w14 w15 w16 : Nat) : Nat :=
  let x := Nat.xor (Nat.xor w14 w9) (Nat.xor w3 w1)
  let w := Nat.add (Nat.land (Nat.shiftLeft x 1) 4294967295) (Nat.shiftRight x 31)
  force (Nat.mod (Nat.add (Nat.add (Nat.add (Nat.add (Nat.add (Nat.land (Nat.shiftLeft a 5) 4294967295) (Nat.shiftRight a 27)) (Nat.lor (Nat.lor (Nat.land b c) (Nat.land b d)) (Nat.land c d))) e) 2400959708) w) 4294967296) (fun t => sha1R60 t a (Nat.add (Nat.land (Nat.shiftLeft b 30) 4294967295) (Nat.shiftRight b 2)) c d w2 w3 w4 w5 w6 w7 w8 w9 w10 w11 w12 w13 w14 w15 w16 w)

def sha1R58 (a b c d e w1 w2 w3 w4 w5 w6 w7 w8 w9 w10 w11 w12 w13 w14 w15 w16 : Nat) : Nat :=
  let x := Nat.xor (Nat.xor w14 w9) (Nat.xor w3 w1)
  let w := Nat.add (Nat.land (Nat.shiftLeft x 1) 4294967295) (Nat.shiftRight x 31)
  force (Nat.mod (Nat.add (Nat.add (Nat.add (Nat.add (Nat.add (Nat.land (Nat.shiftLeft a 5) 4294967295) (Nat.shiftRight a 27)) (Nat.lor (Nat.lor (Nat.land b c) (Nat.land b d)) (Nat.land c d))) e) 2400959708) w) 4294967296) (fun t => sha1R59 t a (Nat.add (Nat.land (Nat.shiftLeft b 30) 4294967295) (Nat.shiftRight b 2)) c d w2 w3 w4 w5 w6 w7 w8 w9 w10 w11 w12 w13 w14 w15 w16 w)

def sha1R57 (a b c d e w1 w2 w3 w4 w5 w6 w7 w8 w9 w10 w11 w12 w13 w14 w15 w16 : Nat) : Nat :=
  let x := Nat.xor (Nat.xor w14 w9) (Nat.xor w3 w1)
  let w := Nat.add (Nat.land (Nat.shiftLeft x 1) 4294967295) (Nat.shiftRight x 31)
  force (Nat.mod (Nat.add (Nat.add (Nat.add (Nat.add (Nat.add (Nat.land (Nat.shiftLeft a 5) 4294967295) (Nat.shiftRight a 27)) (Nat.lor (Nat.lor (Nat.land b c) (Nat.land b d)) (Nat.land c d))) e) 2400959708) w) 4294967296) (fun t => sha1R58 t a (Nat.add (Nat.land (Nat.shiftLeft b 30) 4294967295) (Nat.shiftRight b 2)) c d w2 w3 w4 w5 w6 w7 w8 w9 w10 w11 w12 w13 w14 w15 w16 w)

def sha1R56 (a b c d e w1 w2 w3 w4 w5 w6 w7 w8 w9 w10 w11 w12 w13 w14 w15 w16 : Nat) : Nat :=
  let x := Nat.xor (Nat.xor w14 w9) (Nat.xor w3 w1)
  let w := Nat.add (Nat.land (Nat.shiftLeft x 1) 4294967295) (Nat.shiftRight x 31)
  force (Nat.mod (Nat.add (Nat.add (Nat.add (Nat.add (Nat.add (Nat.land (Nat.shiftLeft a 5) 4294967295) (Nat.shiftRight a 27)) (Nat.lor (Nat.lor (Nat.land b c) (Nat.land b d)) (Nat.land c d))) e) 2400959708) w) 4294967296) (fun t => sha1R57 t a (Nat.add (Nat.land (Nat.shiftLeft b 30) 4294967295) (Nat.shiftRight b 2)) c d w2 w3 w4 w5 w6 w7 w8 w9 w10 w11 w12 w13 w14 w15 w16 w)

def sha1R55 (a b c d e w1 w2 w3 w4 w5 w6 w7 w8 w9 w10 w11 w12 w13 w14 w15 w16 : Nat) : Nat :=
  let x := Nat.xor (Nat.xor w14 w9) (Nat.xor w3 w1)
  let w := Nat.add (Nat.land (Nat.shiftLeft x 1) 4294967295) (Nat.shiftRight x 31)
  force (Nat.mod (Nat.add (Nat.add (Nat.add (Nat.add (Nat.add (Nat.land (Nat.shiftLeft a 5) 4294967295) (Nat.shiftRight a 27)) (Nat.lor (Nat.lor (Nat.land b c) (Nat.land b d)) (Nat.land c d))) e) 2400959708) w) 4294967296) (fun t => sha1R56 t a (Nat.add (Nat.land (Nat.shiftLeft b 30) 4294967295) (Nat.shiftRight b 2)) c d w2 w3 w4 w5 w6 w7 w8 w9 w10 w11 w12 w13 w14 w15 w16 w)

def sha1R54 (a b c d e w1 w2 w3 w4 w5 w6 w7 w8 w9 w10 w11 w12 w13 w14 w15 w16 : Nat) : Nat :=
  let x := Nat.xor (Nat.xor w14 w9) (Nat.xor w3 w1)
  let w := Nat.add (Nat.land (Nat.shiftLeft x 1) 4294967295) (Nat.shiftRight x 31)
  force (Nat.mod (Nat.add (Nat.add (Nat.add (Nat.add (Nat.add (Nat.land (Nat.shiftLeft a 5) 4294967295) (Nat.shiftRight a 27)) (Nat.lor (Nat.lor (Nat.land b c) (Nat.land b d)) (Nat.land c d))) e) 2400959708) w) 4294967296) (fun t => sha1R55 t a (Nat.add (Nat.land (Nat.shiftLeft b 30) 4294967295) (Nat.shiftRight b 2)) c d w2 w3 w4 w5 w6 w7 w8 w9 w10 w11 w12 w13 w14 w15 w16 w)

def sha1R53 (a b c d e w1 w2 w3 w4 w5 w6 w7 w8 w9 w10 w11 w12 w13 w14 w15 w16 : Nat) : Nat :=
  let x := Nat.xor (Nat.xor w14 w9) (Nat.xor w3 w1)
  let w := Nat.add (Nat.land (Nat.shiftLeft x 1) 4294967295) (Nat.shiftRight x 31)
  force (Nat.mod (Nat.add (Nat.add (Nat.add (Nat.add (Nat.add (Nat.land (Nat.shiftLeft a 5) 4294967295) (Nat.shiftRight a 27)) (Nat.lor (Nat.lor (Nat.land b c) (Nat.land b d)) (Nat.land c d))) e) 2400959708) w) 4294967296) (fun t => sha1R54 t a (Nat.add (Nat.land (Nat.shiftLeft b 30) 4294967295) (Nat.shiftRight b 2)) c d w2 w3 w4 w5 w6 w7 w8 w9 w10 w11 w12 w13 w14 w15 w16 w)

def sha1R52 (a b c d e w1 w2 w3 w4 w5 w6 w7 w8 w9 w10 w11 w12 w13 w14 w15 w16 : Nat) : Nat :=
  let x := Nat.xor (Nat.xor w14 w9) (Nat.xor w3 w1)
  let w := Nat.add (Nat.land (Nat.shiftLeft x 1) 4294967295) (Nat.shiftRight x 31)
  force (Nat.mod (Nat.add (Nat.add (Nat.add (Nat.add (Nat.add (Nat.land (Nat.shiftLeft a 5) 4294967295) (Nat.shiftRight a 27)) (Nat.lor (Nat.lor (Nat.land b c) (Nat.land b d)) (Nat.land c d))) e) 2400959708) w) 4294967296) (fun t => sha1R53 t a (Nat.add (Nat.land (Nat.shiftLeft b 30) 4294967295) (Nat.shiftRight b 2)) c d w2 w3 w4 w5 w6 w7 w8 w9 w10 w11 w12 w13 w14 w15 w16 w)

def sha1R51 (a b c d e w1 w2 w3 w4 w5 w6 w7 w8 w9 w10 w11 w12 w13 w14 w15 w16 : Nat) : Nat :=
  let x := Nat.xor (Nat.xor w14 w9) (Nat.xor w3 w1)
  let w := Nat.add (Nat.land (Nat.shiftLeft x 1) 4294967295) (Nat.shiftRight x 31)
  force (Nat.mod (Nat.add (Nat.add (Nat.add (Nat.add (Nat.add (Nat.land (Nat.shiftLeft a 5) 4294967295) (Nat.shiftRight a 27)) (Nat.lor (Nat.lor (Nat.land b c) (Nat.land b d)) (Nat.land c d))) e) 2400959708) w) 4294967296) (fun t => sha1R52 t a (Nat.add (Nat.land (Nat.shiftLeft b 30) 4294967295) (Nat.shiftRight b 2)) c d w2 w3 w4 w5 w6 w7 w8 w9 w10 w11 w12 w13 w14 w15 w16 w)

def sha1R50 (a b c d e w1 w2 w3 w4 w5 w6 w7 w8 w9 w10 w11 w12 w13 w14 w15 w16 : Nat) : Nat :=
  let x := Nat.xor (Nat.xor w14 w9) (Nat.xor w3 w1)
  let w := Nat.add (Nat.land (Nat.shiftLeft x 1) 4294967295) (Nat.shiftRight x 31)
  force (Nat.mod (Nat.add (Nat.add (Nat.add (Nat.add (Nat.add (Nat.land (Nat.shiftLeft a 5) 4294967295) (Nat.shiftRight a 27)) (Nat.lor (Nat.lor (Nat.land b c) (Nat.land b d)) (Nat.land c d))) e) 2400959708) w) 4294967296) (fun t => sha1R51 t a (Nat.add (Nat.land (Nat.shiftLeft b 30) 4294967295) (Nat.shiftRight b 2)) c d w2 w3 w4 w5 w6 w7 w8 w9 w10 w11 w12 w13 w14 w15 w16 w)

def sha1R49 (a b c d e w1 w2 w3 w4 w5 w6 w7 w8 w9 w10 w11 w12 w13 w14 w15 w16 : Nat) : Nat :=
  let x := Nat.xor (Nat.xor w14 w9) (Nat.xor w3 w1)
  let w := Nat.add (Nat.land (Nat.shiftLeft x 1) 4294967295) (Nat.shiftRight x 31)
  force (Nat.mod (Nat.add (Nat.add (Nat.add (Nat.add (Nat.add (Nat.land (Nat.shiftLeft a 5) 4294967295) (Nat.shiftRight a 27)) (Nat.lor (Nat.lor (Nat.land b c) (Nat.land b d)) (Nat.land c d))) e) 2400959708) w) 4294967296) (fun t => sha1R50 t a (Nat.add (Nat.land (Nat.shiftLeft b 30) 4294967295) (Nat.shiftRight b 2)) c d w2 w3 w4 w5 w6 w7 w8 w9 w10 w11 w12 w13 w14 w15 w16 w)

def sha1R48 (a b c d e w1 w2 w3 w4 w5 w6 w7 w8 w9 w10 w11 w12 w13 w14 w15 w16 : Nat) : Nat :=
  let x := Nat.xor (Nat.xor w14 w9) (Nat.xor w3 w1)
  let w := Nat.add (Nat.land (Nat.shiftLeft x 1) 4294967295) (Nat.shiftRight x 31)
  force (Nat.mod (Nat.add (Nat.add (Nat.add (Nat.add (Nat.add (Nat.land (Nat.shiftLeft a 5) 4294967295) (Nat.shiftRight a 27)) (Nat.lor (Nat.lor (Nat.land b c) (Nat.land b d)) (Nat.land c d))) e) 2400959708) w) 4294967296) (fun t => sha1R49 t a (Nat.add (Nat.land (Nat.shiftLeft b 30) 4294967295) (Nat.shiftRight b 2)) c d w2 w3 w4 w5 w6 w7 w8 w9 w10 w11 w12 w13 w14 w15 w16 w)

def sha1R47 (a b c d e w1 w2 w3 w4 w5 w6 w7 w8 w9 w10 w11 w12 w13 w14 w15 w16 : Nat) : Nat :=
  let x := Nat.xor (Nat.xor w14 w9) (Nat.xor w3 w1)
  let w := Nat.add (Nat.land (Nat.shiftLeft x 1) 4294967295) (Nat.shiftRight x 31)
  force (Nat.mod (Nat.add (Nat.add (Nat.add (Nat.add (Nat.add (Nat.land (Nat.shiftLeft a 5) 4294967295) (Nat.shiftRight a 27)) (Nat.lor (Nat.lor (Nat.land b c) (Nat.land b d)) (Nat.land c d))) e) 2400959708) w) 4294967296) (fun t => sha1R48 t a (Nat.add (Nat.land (Nat.shiftLeft b 30) 4294967295) (Nat.shiftRight b 2)) c d w2 w3 w4 w5 w6 w7 w8 w9 w10 w11 w12 w13 w14 w15 w16 w)

def sha1R46 (a b c d e w1 w2 w3 w4 w5 w6 w7 w8 w9 w10 w11 w12 w13 w14 w15 w16 : Nat) : Nat :=
  let x := Nat.xor (Nat.xor w14 w9) (Nat.xor w3 w1)
  let w := Nat.add (Nat.land (Nat.shiftLeft x 1) 4294967295) (Nat.shiftRight x 31)
  force (Nat.mod (Nat.add (Nat.add (Nat.add (Nat.add (Nat.add (Nat.land (Nat.shiftLeft a 5) 4294967295) (Nat.shiftRight a 27)) (Nat.lor (Nat.lor (Nat.land b c) (Nat.land b d)) (Nat.land c d))) e) 2400959708) w) 4294967296) (fun t => sha1R47 t a (Nat.add (Nat.land (Nat.shiftLeft b 30) 4294967295) (Nat.shiftRight b 2)) c d w2 w3 w4 w5 w6 w7 w8 w9 w10 w11 w12 w13 w14 w15 w16 w)

def sha1R45 (a b c d e w1 w2 w3 w4 w5 w6 w7 w8 w9 w10 w11 w12 w13 w14 w15 w16 : Nat) : Nat :=
  let x := Nat.xor (Nat.xor w14 w9) (Nat.xor w3 w1)
  let w := Nat.add (Nat.land (Nat.shiftLeft x 1) 4294967295) (Nat.shiftRight x 31)
  force (Nat.mod (Nat.add (Nat.add (Nat.add (Nat.add (Nat.add (Nat.land (Nat.shiftLeft a 5) 4294967295) (Nat.shiftRight a 27)) (Nat.lor (Nat.lor (Nat.land b c) (Nat.land b d)) (Nat.land c d))) e) 2400959708) w) 4294967296) (fun t => sha1R46 t a (Nat.add (Nat.land (Nat.shiftLeft b 30) 4294967295) (Nat.shiftRight b 2)) c d w2 w3 w4 w5 w6 w7 w8 w9 w10 w11 w12 w13 w14 w15 w16 w)

def sha1R44 (a b c d e w1 w2 w3 w4 w5 w6 w7 w8 w9 w10 w11 w12 w13 w14 w15 w16 : Nat) : Nat :=
  let x := Nat.xor (Nat.xor w14 w9) (Nat.xor w3 w1)
  let w := Nat.add (Nat.land (Nat.shiftLeft x 1) 4294967295) (Nat.shiftRight x 31)
  force (Nat.mod (Nat.add (Nat.add (Nat.add (Nat.add (Nat.add (Nat.land (Nat.shiftLeft a 5) 4294967295) (Nat.shiftRight a 27)) (Nat.lor (Nat.lor (Nat.land b c) (Nat.land b d)) (Nat.land c d))) e) 2400959708) w) 4294967296) (fun t => sha1R45 t a (Nat.add (Nat.land (Nat.shiftLeft b 30) 4294967295) (Nat.shiftRight b 2)) c d w2 w3 w4 w5 w6 w7 w8 w9 w10 w11 w12 w13 w14 w15 w16 w)

def sha1R43 (a b c d e w1 w2 w3 w4 w5 w6 w7 w8 w9 w10 w11 w12 w13 w14 w15 w16 : Nat) : Nat :=
  let x := Nat.xor (Nat.xor w14 w9) (Nat.xor w3 w1)
  let w := Nat.add (Nat.land (Nat.shiftLeft x 1) 4294967295) (Nat.shiftRight x 31)
  force (Nat.mod (Nat.add (Nat.add (Nat.add (Nat.add (Nat.add (Nat.land (Nat.shiftLeft a 5) 4294967295) (Nat.shiftRight a 27)) (Nat.lor (Nat.lor (Nat.land b c) (Nat.land b d)) (Nat.land c d))) e) 2400959708) w) 4294967296) (fun t => sha1R44 t a (Nat.add (Nat.land (Nat.shiftLeft b 30) 4294967295) (Nat.shiftRight b 2)) c d w2 w3 w4 w5 w6 w7 w8 w9 w10 w11 w12 w13 w14 w15 w16 w)

def sha1R42 (a b c d e w1 w2 w3 w4 w5 w6 w7 w8 w9 w10 w11 w12 w13 w14 w15 w16 : Nat) : Nat :=
  let x := Nat.xor (Nat.xor w14 w9) (Nat.xor w3 w1)
  let w := Nat.add (Nat.land (Nat.shiftLeft x 1) 4294967295) (Nat.shiftRight x 31)
  force (Nat.mod (Nat.add (Nat.add (Nat.add (Nat.add (Nat.add (Nat.land (Nat.shiftLeft a 5) 4294967295) (Nat.shiftRight a 27)) (Nat.lor (Nat.lor (Nat.land b c) (Nat.land b d)) (Nat.land c d))) e) 2400959708) w) 4294967296) (fun t => sha1R43 t a (Nat.add (Nat.land (Nat.shiftLeft b 30) 4294967295) (Nat.shiftRight b 2)) c d w2 w3 w4 w5 w6 w7 w8 w9 w10 w11 w12 w13 w14 w15 w16 w)

def sha1R41 (a b c d e w1 w2 w3 w4 w5 w6 w7 w8 w9 w10 w11 w12 w13 w14 w15 w16 : Nat) : Nat :=
  let x := Nat.xor (Nat.xor w14 w9) (Nat.xor w3 w1)
  let w := Nat.add (Nat.land (Nat.shiftLeft x 1) 4294967295) (Nat.shiftRight x 31)
  force (Nat.mod (Nat.add (Nat.add (Nat.add (Nat.add (Nat.add (Nat.land (Nat.shiftLeft a 5) 4294967295) (Nat.shiftRight a 27)) (Nat.lor (Nat.lor (Nat.land b c) (Nat.land b d)) (Nat.land c d))) e) 2400959708) w) 4294967296) (fun t => sha1R42 t a (Nat.add (Nat.land (Nat.shiftLeft b 30) 4294967295) (Nat.shiftRight b 2)) c d w2 w3 w4 w5 w6 w7 w8 w9 w10 w11 w12 w13 w14 w15 w16 w)

def sha1R40 (a b c d e w1 w2 w3 w4 w5 w6 w7 w8 w9 w10 w11 w12 w13 w14 w15 w16 : Nat) : Nat :=
  let x := Nat.xor (Nat.xor w14 w9) (Nat.xor w3 w1)
  let w := Nat.add (Nat.land (Nat.shiftLeft x 1) 4294967295) (Nat.shiftRight x 31)
  force (Nat.mod (Nat.add (Nat.add (Nat.add (Nat.add (Nat.add (Nat.land (Nat.shiftLeft a 5) 4294967295) (Nat.shiftRight a 27)) (Nat.xor (Nat.xor b c) d)) e) 1859775393) w) 4294967296) (fun t => sha1R41 t a (Nat.add (Nat.land (Nat.shiftLeft b 30) 4294967295) (Nat.shiftRight b 2)) c d w2 w3 w4 w5 w6 w7 w8 w9 w10 w11 w12 w13 w14 w15 w16 w)

def sha1R39 (a b c d e w1 w2 w3 w4 w5 w6 w7 w8 w9 w10 w11 w12 w13 w14 w15 w16 : Nat) : Nat :=
  let x := Nat.xor (Nat.xor w14 w9) (Nat.xor w3 w1)
  let w := Nat.add (Nat.land (Nat.shiftLeft x 1) 4294967295) (Nat.shiftRight x 31)
  force (Nat.mod (Nat.add (Nat.add (Nat.add (Nat.add (Nat.add (Nat.land (Nat.shiftLeft a 5) 4294967295) (Nat.shiftRight a 27)) (Nat.xor (Nat.xor b c) d)) e) 1859775393) w) 4294967296) (fun t => sha1R40 t a (Nat.add (Nat.land (Nat.shiftLeft b 30) 4294967295) (Nat.shiftRight b 2)) c d w2 w3 w4 w5 w6 w7 w8 w9 w10 w11 w12 w13 w14 w15 w16 w)

def sha1R38 (a b c d e w1 w2 w3 w4 w5 w6 w7 w8 w9 w10 w11 w12 w13 w14 w15 w16 : Nat) : Nat :=
  let x := Nat.xor (Nat.xor w14 w9) (Nat.xor w3 w1)
  let w := Nat.add (Nat.land (Nat.shiftLeft x 1) 4294967295) (Nat.shiftRight x 31)
  force (Nat.mod (Nat.add (Nat.add (Nat.add (Nat.add (Nat.add (Nat.land (Nat.shiftLeft a 5) 4294967295) (Nat.shiftRight a 27)) (Nat.xor (Nat.xor b c) d)) e) 1859775393) w) 4294967296) (fun t => sha1R39 t a (Nat.add (Nat.land (Nat.shiftLeft b 30) 4294967295) (Nat.shiftRight b 2)) c d w2 w3 w4 w5 w6 w7 w8 w9 w10 w11 w12 w13 w14 w15 w16 w)

def sha1R37 (a b c d e w1 w2 w3 w4 w5 w6 w7 w8 w9 w10 w11 w12 w13 w14 w15 w16 : Nat) : Nat :=
  let x := Nat.xor (Nat.xor w14 w9) (Nat.xor w3 w1)
  let w := Nat.add (Nat.land (Nat.shiftLeft x 1) 4294967295) (Nat.shiftRight x 31)
  force (Nat.mod (Nat.add (Nat.add (Nat.add (Nat.add (Nat.add (Nat.land (Nat.shiftLeft a 5) 4294967295) (Nat.shiftRight a 27)) (Nat.xor (Nat.xor b c) d)) e) 1859775393) w) 4294967296) (fun t => sha1R38 t a (Nat.add (Nat.land (Nat.shiftLeft b 30) 4294967295) (Nat.shiftRight b 2)) c d w2 w3 w4 w5 w6 w7 w8 w9 w10 w11 w12 w13 w14 w15 w16 w)

def sha1R36 (a b c d e w1 w2 w3 w4 w5 w6 w7 w8 w9 w10 w11 w12 w13 w14 w15 w16 : Nat) : Nat :=
  let x := Nat.xor (Nat.xor w14 w9) (Nat.xor w3 w1)
  let w := Nat.add (Nat.land (Nat.shiftLeft x 1) 4294967295) (Nat.shiftRight x 31)
  force (Nat.mod (Nat.add (Nat.add (Nat.add (Nat.add (Nat.add (Nat.land (Nat.shiftLeft a 5) 4294967295) (Nat.shiftRight a 27)) (Nat.xor (Nat.xor b c) d)) e) 1859775393) w) 4294967296) (fun t => sha1R37 t a (Nat.add (Nat.land (Nat.shiftLeft b 30) 4294967295) (Nat.shiftRight b 2)) c d w2 w3 w4 w5 w6 w7 w8 w9 w10 w11 w12 w13 w14 w15 w16 w)

def sha1R35 (a b c d e w1 w2 w3 w4 w5 w6 w7 w8 w9 w10 w11 w12 w13 w14 w15 w16 : Nat) : Nat :=
  let x := Nat.xor (Nat.xor w14 w9) (Nat.xor w3 w1)
  let w := Nat.add (Nat.land (Nat.shiftLeft x 1) 4294967295) (Nat.shiftRight x 31)
  force (Nat.mod (Nat.add (Nat.add (Nat.add (Nat.add (Nat.add (Nat.land (Nat.shiftLeft a 5) 4294967295) (Nat.shiftRight a 27)) (Nat.xor (Nat.xor b c) d)) e) 1859775393) w) 4294967296) (fun t => sha1R36 t a (Nat.add (Nat.land (Nat.shiftLeft b 30) 4294967295) (Nat.shiftRight b 2)) c d w2 w3 w4 w5 w6 w7 w8 w9 w10 w11 w12 w13 w14 w15 w16 w)

def sha1R34 (a b c d e w1 w2 w3 w4 w5 w6 w7 w8 w9 w10 w11 w12 w13 w14 w15 w16 : Nat) : Nat :=
  let x := Nat.xor (Nat.xor w14 w9) (Nat.xor w3 w1)
  let w := Nat.add (Nat.land (Nat.shiftLeft x 1) 4294967295) (Nat.shiftRight x 31)
  force (Nat.mod (Nat.add (Nat.add (Nat.add (Nat.add (Nat.add (Nat.land (Nat.shiftLeft a 5) 4294967295) (Nat.shiftRight a 27)) (Nat.xor (Nat.xor b c) d)) e) 1859775393) w) 4294967296) (fun t => sha1R35 t a (Nat.add (Nat.land (Nat.shiftLeft b 30) 4294967295) (Nat.shiftRight b 2)) c d w2 w3 w4 w5 w6 w7 w8 w9 w10 w11 w12 w13 w14 w15 w16 w)

def sha1R33 (a b c d e w1 w2 w3 w4 w5 w6 w7 w8 w9 w10 w11 w12 w13 w14 w15 w16 : Nat) : Nat :=
  let x := Nat.xor (Nat.xor w14 w9) (Nat.xor w3 w1)
  let w := Nat.add (Nat.land (Nat.shiftLeft x 1) 4294967295) (Nat.shiftRight x 31)
  force (Nat.mod (Nat.add (Nat.add (Nat.add (Nat.add (Nat.add (Nat.land (Nat.shiftLeft a 5) 4294967295) (Nat.shiftRight a 27)) (Nat.xor (Nat.xor b c) d)) e) 1859775393) w) 4294967296) (fun t => sha1R34 t a (Nat.add (Nat.land (Nat.shiftLeft b 30) 4294967295) (Nat.shiftRight b 2)) c d w2 w3 w4 w5 w6 w7 w8 w9 w10 w11 w12 w13 w14 w15 w16 w)

def sha1R32 (a b c d e w1 w2 w3 w4 w5 w6 w7 w8 w9 w10 w11 w12 w13 w14 w15 w16 : Nat) : Nat :=
  let x := Nat.xor (Nat.xor w14 w9) (Nat.xor w3 w1)
  let w := Nat.add (Nat.land (Nat.shiftLeft x 1) 4294967295) (Nat.shiftRight x 31)
  force (Nat.mod (Nat.add (Nat.add (Nat.add (Nat.add (Nat.add (Nat.land (Nat.shiftLeft a 5) 4294967295) (Nat.shiftRight a 27)) (Nat.xor (Nat.xor b c) d)) e) 1859775393) w) 4294967296) (fun t => sha1R33 t a (Nat.add (Nat.land (Nat.shiftLeft b 30) 4294967295) (Nat.shiftRight b 2)) c d w2 w3 w4 w5 w6 w7 w8 w9 w10 w11 w12 w13 w14 w15 w16 w)

def sha1R31 (a b c d e w1 w2 w3 w4 w5 w6 w7 w8 w9 w10 w11 w12 w13 w14 w15 w16 : Nat) : Nat :=
  let x := Nat.xor (Nat.xor w14 w9) (Nat.xor w3 w1)
  let w := Nat.add (Nat.land (Nat.shiftLeft x 1) 4294967295) (Nat.shiftRight x 31)
  force (Nat.mod (Nat.add (Nat.add (Nat.add (Nat.add (Nat.add (Nat.land (Nat.shiftLeft a 5) 4294967295) (Nat.shiftRight a 27)) (Nat.xor (Nat.xor b c) d)) e) 1859775393) w) 4294967296) (fun t => sha1R32 t a (Nat.add (Nat.land (Nat.shiftLeft b 30) 4294967295) (Nat.shiftRight b 2)) c d w2 w3 w4 w5 w6 w7 w8 w9 w10 w11 w12 w13 w14 w15 w16 w)

def sha1R30 (a b c d e w1 w2 w3 w4 w5 w6 w7 w8 w9 w10 w11 w12 w13 w14 w15 w16 : Nat) : Nat :=
  let x := Nat.xor (Nat.xor w14 w9) (Nat.xor w3 w1)
  let w := Nat.add (Nat.land (Nat.shiftLeft x 1) 4294967295) (Nat.shiftRight x 31)
  force (Nat.mod (Nat.add (Nat.add (Nat.add (Nat.add (Nat.add (Nat.land (Nat.shiftLeft a 5) 4294967295) (Nat.shiftRight a 27)) (Nat.xor (Nat.xor b c) d)) e) 1859775393) w) 4294967296) (fun t => sha1R31 t a (Nat.add (Nat.land (Nat.shiftLeft b 30) 4294967295) (Nat.shiftRight b 2)) c d w2 w3 w4 w5 w6 w7 w8 w9 w10 w11 w12 w13 w14 w15 w16 w)

def sha1R29 (a b c d e w1 w2 w3 w4 w5 w6 w7 w8 w9 w10 w11 w12 w13 w14 w15 w16 : Nat) : Nat :=
  let x := Nat.xor (Nat.xor w14 w9) (Nat.xor w3 w1)
  let w := Nat.add (Nat.land (Nat.shiftLeft x 1) 4294967295) (Nat.shiftRight x 31)
  force (Nat.mod (Nat.add (Nat.add (Nat.add (Nat.add (Nat.add (Nat.land (Nat.shiftLeft a 5) 4294967295) (Nat.shiftRight a 27)) (Nat.xor (Nat.xor b c) d)) e) 1859775393) w) 4294967296) (fun t => sha1R30 t a (Nat.add (Nat.land (Nat.shiftLeft b 30) 4294967295) (Nat.shiftRight b 2)) c d w2 w3 w4 w5 w6 w7 w8 w9 w10 w11 w12 w13 w14 w15 w16 w)

def sha1R28 (a b c d e w1 w2 w3 w4 w5 w6 w7 w8 w9 w10 w11 w12 w13 w14 w15 w16 : Nat) : Nat :=
  let x := Nat.xor (Nat.xor w14 w9) (Nat.xor w3 w1)
  let w := Nat.add (Nat.land (Nat.shiftLeft x 1) 4294967295) (Nat.shiftRight x 31)
  force (Nat.mod (Nat.add (Nat.add (Nat.add (Nat.add (Nat.add (Nat.land (Nat.shiftLeft a 5) 4294967295) (Nat.shiftRight a 27)) (Nat.xor (Nat.xor b c) d)) e) 1859775393) w) 4294967296) (fun t => sha1R29 t a (Nat.add (Nat.land (Nat.shiftLeft b 30) 4294967295) (Nat.shiftRight b 2)) c d w2 w3 w4 w5 w6 w7 w8 w9 w10 w11 w12 w13 w14 w15 w16 w)

def sha1R27 (a b c d e w1 w2 w3 w4 w5 w6 w7 w8 w9 w10 w11 w12 w13 w14 w15 w16 : Nat) : Nat :=
  let x := Nat.xor (Nat.xor w14 w9) (Nat.xor w3 w1)
  let w := Nat.add (Nat.land (Nat.shiftLeft x 1) 4294967295) (Nat.shiftRight x 31)
  force (Nat.mod (Nat.add (Nat.add (Nat.add (Nat.add (Nat.add (Nat.land (Nat.shiftLeft a 5) 4294967295) (Nat.shiftRight a 27)) (Nat.xor (Nat.xor b c) d)) e) 1859775393) w) 4294967296) (fun t => sha1R28 t a (Nat.add (Nat.land (Nat.shiftLeft b 30) 4294967295) (Nat.shiftRight b 2)) c d w2 w3 w4 w5 w6 w7 w8 w9 w10 w11 w12 w13 w14 w15 w16 w)

def sha1R26 (a b c d e w1 w2 w3 w4 w5 w6 w7 w8 w9 w10 w11 w12 w13 w14 w15 w16 : Nat) : Nat :=
  let x := Nat.xor (Nat.xor w14 w9) (Nat.xor w3 w1)
  let w := Nat.add (Nat.land (Nat.shiftLeft x 1) 4294967295) (Nat.shiftRight x 31)
  force (Nat.mod (Nat.add (Nat.add (Nat.add (Nat.add (Nat.add (Nat.land (Nat.shiftLeft a 5) 4294967295) (Nat.shiftRight a 27)) (Nat.xor (Nat.xor b c) d)) e) 1859775393) w) 4294967296) (fun t => sha1R27 t a (Nat.add (Nat.land (Nat.shiftLeft b 30) 4294967295) (Nat.shiftRight b 2)) c d w2 w3 w4 w5 w6 w7 w8 w9 w10 w11 w12 w13 w14 w15 w16 w)

def sha1R25 (a b c d e w1 w2 w3 w4 w5 w6 w7 w8 w9 w10 w11 w12 w13 w14 w15 w16 : Nat) : Nat :=
  let x := Nat.xor (Nat.xor w14 w9) (Nat.xor w3 w1)
  let w := Nat.add (Nat.land (Nat.shiftLeft x 1) 4294967295) (Nat.shiftRight x 31)
  force (Nat.mod (Nat.add (Nat.add (Nat.add (Nat.add (Nat.add (Nat.land (Nat.shiftLeft a 5) 4294967295) (Nat.shiftRight a 27)) (Nat.xor (Nat.xor b c) d)) e) 1859775393) w) 4294967296) (fun t => sha1R26 t a (Nat.add (Nat.land (Nat.shiftLeft b 30) 4294967295) (Nat.shiftRight b 2)) c d w2 w3 w4 w5 w6 w7 w8 w9 w10 w11 w12 w13 w14 w15 w16 w)

def sha1R24 (a b c d e w1 w2 w3 w4 w5 w6 w7 w8 w9 w10 w11 w12 w13 w14 w15 w16 : Nat) : Nat :=
  let x := Nat.xor (Nat.xor w14 w9) (Nat.xor w3 w1)
  let w := Nat.add (Nat.land (Nat.shiftLeft x 1) 4294967295) (Nat.shiftRight x 31)
  force (Nat.mod (Nat.add (Nat.add (Nat.add (Nat.add (Nat.add (Nat.land (Nat.shiftLeft a 5) 4294967295) (Nat.shiftRight a 27)) (Nat.xor (Nat.xor b c) d)) e) 1859775393) w) 4294967296) (fun t => sha1R25 t a (Nat.add (Nat.land (Nat.shiftLeft b 30) 4294967295) (Nat.shiftRight b 2)) c d w2 w3 w4 w5 w6 w7 w8 w9 w10 w11 w12 w13 w14 w15 w16 w)

def sha1R23 (a b c d e w1 w2 w3 w4 w5 w6 w7 w8 w9 w10 w11 w12 w13 w14 w15 w16 : Nat) : Nat :=
  let x := Nat.xor (Nat.xor w14 w9) (Nat.xor w3 w1)
  let w := Nat.add (Nat.land (Nat.shiftLeft x 1) 4294967295) (Nat.shiftRight x 31)
  force (Nat.mod (Nat.add (Nat.add (Nat.add (Nat.add (Nat.add (Nat.land (Nat.shiftLeft a 5) 4294967295) (Nat.shiftRight a 27)) (Nat.xor (Nat.xor b c) d)) e) 1859775393) w) 4294967296) (fun t => sha1R24 t a (Nat.add (Nat.land (Nat.shiftLeft b 30) 4294967295) (Nat.shiftRight b 2)) c d w2 w3 w4 w5 w6 w7 w8 w9 w10 w11 w12 w13 w14 w15 w16 w)

def sha1R22 (a b c d e w1 w2 w3 w4 w5 w6 w7 w8 w9 w10 w11 w12 w13 w14 w15 w16 : Nat) : Nat :=
  let x := Nat.xor (Nat.xor w14 w9) (Nat.xor w3 w1)
  let w := Nat.add (Nat.land (Nat.shiftLeft x 1) 4294967295) (Nat.shiftRight x 31)
  force (Nat.mod (Nat.add (Nat.add (Nat.add (Nat.add (Nat.add (Nat.land (Nat.shiftLeft a 5) 4294967295) (Nat.shiftRight a 27)) (Nat.xor (Nat.xor b c) d)) e) 1859775393) w) 4294967296) (fun t => sha1R23 t a (Nat.add (Nat.land (Nat.shiftLeft b 30) 4294967295) (Nat.shiftRight b 2)) c d w2 w3 w4 w5 w6 w7 w8 w9 w10 w11 w12 w13 w14 w15 w16 w)

def sha1R21 (a b c d e w1 w2 w3 w4 w5 w6 w7 w8 w9 w10 w11 w12 w13 w14 w15 w16 : Nat) : Nat :=
  let x := Nat.xor (Nat.xor w14 w9) (Nat.xor w3 w1)
  let w := Nat.add (Nat.land (Nat.shiftLeft x 1) 4294967295) (Nat.shiftRight x 31)
  force (Nat.mod (Nat.add (Nat.add (Nat.add (Nat.add (Nat.add (Nat.land (Nat.shiftLeft a 5) 4294967295) (Nat.shiftRight a 27)) (Nat.xor (Nat.xor b c) d)) e) 1859775393) w) 4294967296) (fun t => sha1R22 t a (Nat.add (Nat.land (Nat.shiftLeft b 30) 4294967295) (Nat.shiftRight b 2)) c d w2 w3 w4 w5 w6 w7 w8 w9 w10 w11 w12 w13 w14 w15 w16 w)

def sha1R20 (a b c d e w1 w2 w3 w4 w5 w6 w7 w8 w9 w10 w11 w12 w13 w14 w15 w16 : Nat) : Nat :=
  let x := Nat.xor (Nat.xor w14 w9) (Nat.xor w3 w1)
  let w := Nat.add (Nat.land (Nat.shiftLeft x 1) 4294967295) (Nat.shiftRight x 31)
  force (Nat.mod (Nat.add (Nat.add (Nat.add (Nat.add (Nat.add (Nat.land (Nat.shiftLeft a 5) 4294967295) (Nat.shiftRight a 27)) (Nat.lor (Nat.land b c) (Nat.land (Nat.xor b 4294967295) d))) e) 1518500249) w) 4294967296) (fun t => sha1R21 t a (Nat.add (Nat.land (Nat.shiftLeft b 30) 4294967295) (Nat.shiftRight b 2)) c d w2 w3 w4 w5 w6 w7 w8 w9 w10 w11 w12 w13 w14 w15 w16 w)

def sha1R19 (a b c d e w1 w2 w3 w4 w5 w6 w7 w8 w9 w10 w11 w12 w13 w14 w15 w16 : Nat) : Nat :=
  let x := Nat.xor (Nat.xor w14 w9) (Nat.xor w3 w1)
  let w := Nat.add (Nat.land (Nat.shiftLeft x 1) 4294967295) (Nat.shiftRight x 31)
  force (Nat.mod (Nat.add (Nat.add (Nat.add (Nat.add (Nat.add (Nat.land (Nat.shiftLeft a 5) 4294967295) (Nat.shiftRight a 27)) (Nat.lor (Nat.land b c) (Nat.land (Nat.xor b 4294967295) d))) e) 1518500249) w) 4294967296) (fun t => sha1R20 t a (Nat.add (Nat.land (Nat.shiftLeft b 30) 4294967295) (Nat.shiftRight b 2)) c d w2 w3 w4 w5 w6 w7 w8 w9 w10 w11 w12 w13 w14 w15 w16 w)

def sha1R18 (a b c d e w1 w2 w3 w4 w5 w6 w7 w8 w9 w10 w11 w12 w13 w14 w15 w16 : Nat) : Nat :=
  let x := Nat.xor (Nat.xor w14 w9) (Nat.xor w3 w1)
  let w := Nat.add (Nat.land (Nat.shiftLeft x 1) 4294967295) (Nat.shiftRight x 31)
  force (Nat.mod (Nat.add (Nat.add (Nat.add (Nat.add (Nat.add (Nat.land (Nat.shiftLeft a 5) 4294967295) (Nat.shiftRight a 27)) (Nat.lor (Nat.land b c) (Nat.land (Nat.xor b 4294967295) d))) e) 1518500249) w) 4294967296) (fun t => sha1R19 t a (Nat.add (Nat.land (Nat.shiftLeft b 30) 4294967295) (Nat.shiftRight b 2)) c d w2 w3 w4 w5 w6 w7 w8 w9 w10 w11 w12 w13 w14 w15 w16 w)

def sha1R17 (a b c d e w1 w2 w3 w4 w5 w6 w7 w8 w9 w10 w11 w12 w13 w14 w15 w16 : Nat) : Nat :=
  let x := Nat.xor (Nat.xor w14 w9) (Nat.xor w3 w1)
  let w := Nat.add (Nat.land (Nat.shiftLeft x 1) 4294967295) (Nat.shiftRight x 31)
  force (Nat.mod (Nat.add (Nat.add (Nat.add (Nat.add (Nat.add (Nat.land (Nat.shiftLeft a 5) 4294967295) (Nat.shiftRight a 27)) (Nat.lor (Nat.land b c) (Nat.land (Nat.xor b 4294967295) d))) e) 1518500249) w) 4294967296) (fun t => sha1R18 t a (Nat.add (Nat.land (Nat.shiftLeft b 30) 4294967295) (Nat.shiftRight b 2)) c d w2 w3 w4 w5 w6 w7 w8 w9 w10 w11 w12 w13 w14 w15 w16 w)

def sha1R16 (a b c d e w1 w2 w3 w4 w5 w6 w7 w8 w9 w10 w11 w12 w13 w14 w15 w16 : Nat) : Nat :=
  force (Nat.mod (Nat.add (Nat.add (Nat.add (Nat.add (Nat.add (Nat.land (Nat.shiftLeft a 5) 4294967295) (Nat.shiftRight a 27)) (Nat.lor (Nat.land b c) (Nat.land (Nat.xor b 4294967295) d))) e) 1518500249) w16) 4294967296) (fun t => sha1R17 t a (Nat.add (Nat.land (Nat.shiftLeft b 30) 4294967295) (Nat.shiftRight b 2)) c d w1 w2 w3 w4 w5 w6 w7 w8 w9 w10 w11 w12 w13 w14 w15 w16)

def sha1R15 (a b c d e w1 w2 w3 w4 w5 w6 w7 w8 w9 w10 w11 w12 w13 w14 w15 w16 : Nat) : Nat :=
  force (Nat.mod (Nat.add (Nat.add (Nat.add (Nat.add (Nat.add (Nat.land (Nat.shiftLeft a 5) 4294967295) (Nat.shiftRight a 27)) (Nat.lor (Nat.land b c) (Nat.land (Nat.xor b 4294967295) d))) e) 1518500249) w15) 4294967296) (fun t => sha1R16 t a (Nat.add (Nat.land (Nat.shiftLeft b 30) 4294967295) (Nat.shiftRight b 2)) c d w1 w2 w3 w4 w5 w6 w7 w8 w9 w10 w11 w12 w13 w14 w15 w16)

def sha1R14 (a b c d e w1 w2 w3 w4 w5 w6 w7 w8 w9 w10 w11 w12 w13 w14 w15 w16 : Nat) : Nat :=
  force (Nat.mod (Nat.add (Nat.add (Nat.add (Nat.add (Nat.add (Nat.land (Nat.shiftLeft a 5) 4294967295) (Nat.shiftRight a 27)) (Nat.lor (Nat.land b c) (Nat.land (Nat.xor b 4294967295) d))) e) 1518500249) w14) 4294967296) (fun t => sha1R15 t a (Nat.add (Nat.land (Nat.shiftLeft b 30) 4294967295) (Nat.shiftRight b 2)) c d w1 w2 w3 w4 w5 w6 w7 w8 w9 w10 w11 w12 w13 w14 w15 w16)

def sha1R13 (a b c d e w1 w2 w3 w4 w5 w6 w7 w8 w9 w10 w11 w12 w13 w14 w15 w16 : Nat) : Nat :=
  force (Nat.mod (Nat.add (Nat.add (Nat.add (Nat.add (Nat.add (Nat.land (Nat.shiftLeft a 5) 4294967295) (Nat.shiftRight a 27)) (Nat.lor (Nat.land b c) (Nat.land (Nat.xor b 4294967295) d))) e) 1518500249) w13) 4294967296) (fun t => sha1R14 t a (Nat.add (Nat.land (Nat.shiftLeft b 30) 4294967295) (Nat.shiftRight b 2)) c d w1 w2 w3 w4 w5 w6 w7 w8 w9 w10 w11 w12 w13 w14 w15 w16)

def sha1R12 (a b c d e w1 w2 w3 w4 w5 w6 w7 w8 w9 w10 w11 w12 w13 w14 w15 w16 : Nat) : Nat :=
  force (Nat.mod (Nat.add (Nat.add (Nat.add (Nat.add (Nat.add (Nat.land (Nat.shiftLeft a 5) 4294967295) (Nat.shiftRight a 27)) (Nat.lor (Nat.land b c) (Nat.land (Nat.xor b 4294967295) d))) e) 1518500249) w12) 4294967296) (fun t => sha1R13 t a (Nat.add (Nat.land (Nat.shiftLeft b 30) 4294967295) (Nat.shiftRight b 2)) c d w1 w2 w3 w4 w5 w6 w7 w8 w9 w10 w11 w12 w13 w14 w15 w16)

def sha1R11 (a b c d e w1 w2 w3 w4 w5 w6 w7 w8 w9 w10 w11 w12 w13 w14 w15 w16 : Nat) : Nat :=
  force (Nat.mod (Nat.add (Nat.add (Nat.add (Nat.add (Nat.add (Nat.land (Nat.shiftLeft a 5) 4294967295) (Nat.shiftRight a 27)) (Nat.lor (Nat.land b c) (Nat.land (Nat.xor b 4294967295) d))) e) 1518500249) w11) 4294967296) (fun t => sha1R12 t a (Nat.add (Nat.land (Nat.shiftLeft b 30) 4294967295) (Nat.shiftRight b 2)) c d w1 w2 w3 w4 w5 w6 w7 w8 w9 w10 w11 w12 w13 w14 w15 w16)

def sha1R10 (a b c d e w1 w2 w3 w4 w5 w6 w7 w8 w9 w10 w11 w12 w13 w14 w15 w16 : Nat) : Nat :=
  force (Nat.mod (Nat.add (Nat.add (Nat.add (Nat.add (Nat.add (Nat.land (Nat.shiftLeft a 5) 4294967295) (Nat.shiftRight a 27)) (Nat.lor (Nat.land b c) (Nat.land (Nat.xor b 4294967295) d))) e) 1518500249) w10) 4294967296) (fun t => sha1R11 t a (Nat.add (Nat.land (Nat.shiftLeft b 30) 4294967295) (Nat.shiftRight b 2)) c d w1 w2 w3 w4 w5 w6 w7 w8 w9 w10 w11 w12 w13 w14 w15 w16)

def sha1R09 (a b c d e w1 w2 w3 w4 w5 w6 w7 w8 w9 w10 w11 w12 w13 w14 w15 w16 : Nat) : Nat :=
  force (Nat.mod (Nat.add (Nat.add (Nat.add (Nat.add (Nat.add (Nat.land (Nat.shiftLeft a 5) 4294967295) (Nat.shiftRight a 27)) (Nat.lor (Nat.land b c) (Nat.land (Nat.xor b 4294967295) d))) e) 1518500249) w9) 4294967296) (fun t => sha1R10 t a (Nat.add (Nat.land (Nat.shiftLeft b 30) 4294967295) (Nat.shiftRight b 2)) c d w1 w2 w3 w4 w5 w6 w7 w8 w9 w10 w11 w12 w13 w14 w15 w16)

def sha1R08 (a b c d e w1 w2 w3 w4 w5 w6 w7 w8 w9 w10 w11 w12 w13 w14 w15 w16 : Nat) : Nat :=
  force (Nat.mod (Nat.add (Nat.add (Nat.add (Nat.add (Nat.add (Nat.land (Nat.shiftLeft a 5) 4294967295) (Nat.shiftRight a 27)) (Nat.lor (Nat.land b c) (Nat.land (Nat.xor b 4294967295) d))) e) 1518500249) w8) 4294967296) (fun t => sha1R09 t a (Nat.add (Nat.land (Nat.shiftLeft b 30) 4294967295) (Nat.shiftRight b 2)) c d w1 w2 w3 w4 w5 w6 w7 w8 w9 w10 w11 w12 w13 w14 w15 w16)

def sha1R07 (a b c d e w1 w2 w3 w4 w5 w6 w7 w8 w9 w10 w11 w12 w13 w14 w15 w16 : Nat) : Nat :=
  force (Nat.mod (Nat.add (Nat.add (Nat.add (Nat.add (Nat.add (Nat.land (Nat.shiftLeft a 5) 4294967295) (Nat.shiftRight a 27)) (Nat.lor (Nat.land b c) (Nat.land (Nat.xor b 4294967295) d))) e) 1518500249) w7) 4294967296) (fun t => sha1R08 t a (Nat.add (Nat.land (Nat.shiftLeft b 30) 4294967295) (Nat.shiftRight b 2)) c d w1 w2 w3 w4 w5 w6 w7 w8 w9 w10 w11 w12 w13 w14 w15 w16)

def sha1R06 (a b c d e w1 w2 w3 w4 w5 w6 w7 w8 w9 w10 w11 w12 w13 w14 w15 w16 : Nat) : Nat :=
  force (Nat.mod (Nat.add (Nat.add (Nat.add (Nat.add (Nat.add (Nat.land (Nat.shiftLeft a 5) 4294967295) (Nat.shiftRight a 27)) (Nat.lor (Nat.land b c) (Nat.land (Nat.xor b 4294967295) d))) e) 1518500249) w6) 4294967296) (fun t => sha1R07 t a (Nat.add (Nat.land (Nat.shiftLeft b 30) 4294967295) (Nat.shiftRight b 2)) c d w1 w2 w3 w4 w5 w6 w7 w8 w9 w10 w11 w12 w13 w14 w15 w16)

def sha1R05 (a b c d e w1 w2 w3 w4 w5 w6 w7 w8 w9 w10 w11 w12 w13 w14 w15 w16 : Nat) : Nat :=
  force (Nat.mod (Nat.add (Nat.add (Nat.add (Nat.add (Nat.add (Nat.land (Nat.shiftLeft a 5) 4294967295) (Nat.shiftRight a 27)) (Nat.lor (Nat.land b c) (Nat.land (Nat.xor b 4294967295) d))) e) 1518500249) w5) 4294967296) (fun t => sha1R06 t a (Nat.add (Nat.land (Nat.shiftLeft b 30) 4294967295) (Nat.shiftRight b 2)) c d w1 w2 w3 w4 w5 w6 w7 w8 w9 w10 w11 w12 w13 w14 w15 w16)

def sha1R04 (a b c d e w1 w2 w3 w4 w5 w6 w7 w8 w9 w10 w11 w12 w13 w14 w15 w16 : Nat) : Nat :=
  force (Nat.mod (Nat.add (Nat.add (Nat.add (Nat.add (Nat.add (Nat.land (Nat.shiftLeft a 5) 4294967295) (Nat.shiftRight a 27)) (Nat.lor (Nat.land b c) (Nat.land (Nat.xor b 4294967295) d))) e) 1518500249) w4) 4294967296) (fun t => sha1R05 t a (Nat.add (Nat.land (Nat.shiftLeft b 30) 4294967295) (Nat.shiftRight b 2)) c d w1 w2 w3 w4 w5 w6 w7 w8 w9 w10 w11 w12 w13 w14 w15 w16)

def sha1R03 (a b c d e w1 w2 w3 w4 w5 w6 w7 w8 w9 w10 w11 w12 w13 w14 w15 w16 : Nat) : Nat :=
  force (Nat.mod (Nat.add (Nat.add (Nat.add (Nat.add (Nat.add (Nat.land (Nat.shiftLeft a 5) 4294967295) (Nat.shiftRight a 27)) (Nat.lor (Nat.land b c) (Nat.land (Nat.xor b 4294967295) d))) e) 1518500249) w3) 4294967296) (fun t => sha1R04 t a (Nat.add (Nat.land (Nat.shiftLeft b 30) 4294967295) (Nat.shiftRight b 2)) c d w1 w2 w3 w4 w5 w6 w7 w8 w9 w10 w11 w12 w13 w14 w15 w16)

def sha1R02 (a b c d e w1 w2 w3 w4 w5 w6 w7 w8 w9 w10 w11 w12 w13 w14 w15 w16 : Nat) : Nat :=
  force (Nat.mod (Nat.add (Nat.add (Nat.add (Nat.add (Nat.add (Nat.land (Nat.shiftLeft a 5) 4294967295) (Nat.shiftRight a 27)) (Nat.lor (Nat.land b c) (Nat.land (Nat.xor b 4294967295) d))) e) 1518500249) w2) 4294967296) (fun t => sha1R03 t a (Nat.add (Nat.land (Nat.shiftLeft b 30) 4294967295) (Nat.shiftRight b 2)) c d w1 w2 w3 w4 w5 w6 w7 w8 w9 w10 w11 w12 w13 w14 w15 w16)

def sha1R01 (a b c d e w1 w2 w3 w4 w5 w6 w7 w8 w9 w10 w11 w12 w13 w14 w15 w16 : Nat) : Nat :=
  force (Nat.mod (Nat.add (Nat.add (Nat.add (Nat.add (Nat.add (Nat.land (Nat.shiftLeft a 5) 4294967295) (Nat.shiftRight a 27)) (Nat.lor (Nat.land b c) (Nat.land (Nat.xor b 4294967295) d))) e) 1518500249) w1) 4294967296) (fun t => sha1R02 t a (Nat.add (Nat.land (Nat.shiftLeft b 30) 4294967295) (Nat.shiftRight b 2)) c d w1 w2 w3 w4 w5 w6 w7 w8 w9 w10 w11 w12 w13 w14 w15 w16)

/-- Compress one 512-bit block (packed big-endian into a `Nat`, word 0
most significant) into the 160-bit packed hash state: run the 80 rounds
and add each 32-bit lane of the result to the matching lane of `h`
modulo `2 ^ 32`. -/
def sha1Compress (h block : Nat) : Nat :=
  force (sha1R01 (Nat.land (Nat.shiftRight h 128) 4294967295) (Nat.land (Nat.shiftRight h 96) 4294967295)
      (Nat.land (Nat.shiftRight h 64) 4294967295) (Nat.land (Nat.shiftRight h 32) 4294967295) (Nat.land h 4294967295)
      (Nat.land (Nat.shiftRight block 480) 4294967295) (Nat.land (Nat.shiftRight block 448) 4294967295)
      (Nat.land (Nat.shiftRight block 416) 4294967295) (Nat.land (Nat.shiftRight block 384) 4294967295)
      (Nat.land (Nat.shiftRight block 352) 4294967295) (Nat.land (Nat.shiftRight block 320) 4294967295)
      (Nat.land (Nat.shiftRight block 288) 4294967295) (Nat.land (Nat.shiftRight block 256) 4294967295)
      (Nat.land (Nat.shiftRight block 224) 4294967295) (Nat.land (Nat.shiftRight block 192) 4294967295)
      (Nat.land (Nat.shiftRight block 160) 4294967295) (Nat.land (Nat.shiftRight block 128) 4294967295)
      (Nat.land (Nat.shiftRight block 96) 4294967295) (Nat.land (Nat.shiftRight block 64) 4294967295)
      (Nat.land (Nat.shiftRight block 32) 4294967295) (Nat.land block 4294967295))
    (fun fin =>
  Nat.add (Nat.mul (Nat.mod (Nat.add (Nat.shiftRight h 128) (Nat.land (Nat.shiftRight fin 128) 4294967295)) 4294967296) P128)
    (Nat.add (Nat.mul (Nat.mod (Nat.add (Nat.land (Nat.shiftRight h 96) 4294967295) (Nat.land (Nat.shiftRight fin 96) 4294967295)) 4294967296) P96)
      (Nat.add (Nat.mul (Nat.mod (Nat.add (Nat.land (Nat.shiftRight h 64) 4294967295) (Nat.land (Nat.shiftRight fin 64) 4294967295)) 4294967296) P64)
        (Nat.add (Nat.mul (Nat.mod (Nat.add (Nat.land (Nat.shiftRight h 32) 4294967295) (Nat.land (Nat.shiftRight fin 32) 4294967295)) 4294967296) 4294967296)
          (Nat.mod (Nat.add (Nat.land h 4294967295) (Nat.land fin 4294967295)) 4294967296)))))

/-- The SHA-1 initial state, packed. -/
def sha1IV : Nat :=
  1732584193 * P128 + 4023233417 * P96 + 2562383102 * P64 +
    271733878 * 4294967296 + 3285377520

/-- Fold a byte string into a `Nat`, big-endian, on top of `acc`. -/
def packBytes (l : Bytes) (acc : Nat) : Nat :=
  List.rec (motive := fun _ => Nat → Nat) (fun a => a)
    (fun b _ ih a => ih (Nat.add (Nat.mul a 256) b)) l acc

/-- Unpack the low `n` bytes of a `Nat`, big-endian. -/
def unpackBytes : Nat → Nat → Bytes
  | 0, _ => []
  | n + 1, v => Nat.land (Nat.shiftRight v (8 * n)) 255 :: unpackBytes n v

/-- Run the SHA-1 compression over the padded message: `nblocks`
64-byte blocks packed into one big `Nat` (first block most
significant). -/
def sha1Blocks (nblocks : Nat) (data : Nat) (h : Nat) : Nat :=
  Nat.rec (motive := fun _ => Nat → Nat) (fun st => st)
    (fun k ih st => force (sha1Compress st (Nat.mod (Nat.shiftRight data (512 * k)) M512)) ih)
    nblocks h

/-- SHA-1 padding: append `0x80`, zeros, and the 64-bit big-endian bit
length, reaching a multiple of 64 bytes; the result is the number of
blocks together with all blocks packed into one `Nat`. -/
def sha1Pad (msg : Bytes) : Nat × Nat :=
  let len := msg.length
  let zeros := (119 - len % 64) % 64
  let nblocks := (len + 1 + zeros + 8) / 64
  (nblocks, (packBytes msg 0 * 256 + 128) <<< (8 * (zeros + 8)) + 8 * len)

/-- SHA-1 of a byte string, with the 20-byte digest packed into a `Nat`. -/
def sha1N (msg : Bytes) : Nat :=
  sha1Blocks (sha1Pad msg).1 (sha1Pad msg).2 sha1IV

/-- SHA-1 of a byte string: the 20-byte binary digest (`SHA::binary()`). -/
def sha1 (msg : Bytes) : Bytes := unpackBytes 20 (sha1N msg)

/-! ## HMAC-SHA-1 and Hi (`ClientBase::hmac`, `ClientBase::hi`) -/

/-- `ClientBase::hmac` with the 20-byte digest left packed as a `Nat`:
keys longer than 64 bytes are first hashed; the key is zero-padded to
64 bytes and xored with the ipad/opad bytes. -/
def hmacN (key msg : Bytes) : Nat :=
  let key1 := if 64 < key.length then sha1 key else key
  let key64 := key1 ++ List.replicate (64 - key1.length) 0
  sha1N (key64.map (fun b => b ^^^ 92) ++
    unpackBytes 20 (sha1N (key64.map (fun b => b ^^^ 54) ++ msg)))

/-- `ClientBase::hmac`: the 20-byte binary HMAC-SHA-1 digest. -/
def hmac (key msg : Bytes) : Bytes := unpackBytes 20 (hmacN key msg)

/-- One iteration of `ClientBase::hi`\x27s loop — `tmp = hmac(str, tmp)`
followed by `xored ^= tmp` — on the state `tmp * 2^160 + xored` packed
into a single `Nat`. -/
def hiStepN (str : Bytes) (s : Nat) : Nat :=
  Nat.lor (Nat.shiftLeft (hmacN str (unpackBytes 20 (Nat.shiftRight s 160))) 160)
    (Nat.xor (Nat.land s MASK160) (hmacN str (unpackBytes 20 (Nat.shiftRight s 160))))

/-- `n`-fold iteration of `hiStepN`. -/
def hiLoop (str : Bytes) (n : Nat) (s : Nat) : Nat :=
  Nat.rec (motive := fun _ => Nat → Nat) (fun acc => acc)
    (fun _ ih acc => force (hiStepN str acc) ih) n s

/-- `ClientBase::hi`: PBKDF2-HMAC-SHA-1 with a single `\x00\x00\x00\x01`
counter block and 20-byte output.  The first loop iteration, whose
input `salt ++ counter` has arbitrary length, is unrolled; after it the
running pair `(tmp, xored)` is `(u1, 0 ^^^ u1) = (u1, u1)`. -/
def hi (str salt : Bytes) (iter : Nat) : Bytes :=
  match iter with
  | 0 => List.replicate 20 0
  | n + 1 =>
    unpackBytes 20 (Nat.land
      (hiLoop str n (Nat.lor (Nat.shiftLeft (hmacN str (salt ++ [0, 0, 0, 1])) 160)
        (hmacN str (salt ++ [0, 0, 0, 1]))))
      MASK160)

/-! ## A fast path for the Hi iteration

`hi` re-hashes the fixed 64-byte ipad/opad blocks on every one of its
`iter` HMAC invocations.  For feasible kernel evaluation of the RFC
5802 example (4096 iterations) we precompute the two block states and
prove the byte-level and the precomputed formulations equal. -/

/-- The trailing 44 bytes of the single padding block of an 84-byte
message: `0x80`, 35 zero bytes, and the 64-bit bit length 672. -/
def blockTail : Nat := 128 * (1 <<< 344) + 672

/-- The padded 64-byte block holding a 20-byte packed message `v`. -/
def blockOf (v : Nat) : Nat := Nat.add (Nat.mul v P352) blockTail

/-- The ipad block bytes of a (≤ 64 byte) HMAC key. -/
def ipadList (key : Bytes) : Bytes :=
  (key ++ List.replicate (64 - key.length) 0).map (fun b => b ^^^ 54)

/-- The opad block bytes of a (≤ 64 byte) HMAC key. -/
def opadList (key : Bytes) : Bytes :=
  (key ++ List.replicate (64 - key.length) 0).map (fun b => b ^^^ 92)

/-- The hash state after compressing the ipad block. -/
def istN (key : Bytes) : Nat := sha1Compress sha1IV (packBytes (ipadList key) 0)

/-- The hash state after compressing the opad block. -/
def ostN (key : Bytes) : Nat := sha1Compress sha1IV (packBytes (opadList key) 0)

/-- `hmacN` of a 20-byte message, with precomputed pad states. -/
def hmacNFast (ist ost v : Nat) : Nat :=
  sha1Compress ost (blockOf (sha1Compress ist (blockOf (Nat.mod v (Nat.add MASK160 1)))))

/-- One fast Hi iteration, on the packed `tmp * 2^160 + xored` state. -/
def hiStepFast (ist ost : Nat) (s : Nat) : Nat :=
  force (hmacNFast ist ost (Nat.shiftRight s 160)) (fun tmp =>
    Nat.lor (Nat.shiftLeft tmp 160) (Nat.xor (Nat.land s MASK160) tmp))

/-- `n`-fold iteration of `hiStepFast`. -/
def hiLoopFast (ist ost : Nat) (n : Nat) (s : Nat) : Nat :=
  Nat.rec (motive := fun _ => Nat → Nat) (fun acc => acc)
    (fun _ ih acc => force (hiStepFast ist ost acc) ih) n s

/-! ## The RFC 5802 section 5 example: salted password

Password `pencil`, salt base64 `QSXCR+Q6sek8bf92`, 4096 iterations.
The 4095 fast-loop iterations are evaluated by the kernel in 16 chunks
and composed with `hiLoopFast_add`. -/

/-- The RFC 5802 example password. -/
def pencilKey : Bytes := ascii "pencil"

/-- The RFC 5802 example salt (base64 `QSXCR+Q6sek8bf92`, decoded). -/
def rfcSalt : Bytes := [65, 37, 194, 71, 228, 58, 177, 233, 60, 109, 255, 118]

/-! ## Base64

Modelled from the spec: `Base64::encode64`/`Base64::decode64`
(base64.cpp is not part of the given source); standard RFC 4648 base64
with `=` padding; decoding skips any byte outside the alphabet. -/

/-- 6-bit value to base64 alphabet byte. -/
def b64Char (v : Nat) : Nat :=
  (ascii "ABCDEFGHIJKLMNOPQRSTUVWXYZabcdefghijklmnopqrstuvwxyz0123456789+/").getD v 0

/-- Base64 encoding of a byte string (with `=` padding). -/
def encode64 : Bytes → Bytes
  | [] => []
  | [a] => [b64Char (a >>> 2), b64Char ((a % 4) <<< 4), 61, 61]
  | [a, b] => [b64Char (a >>> 2), b64Char (((a % 4) <<< 4) + (b >>> 4)), b64Char ((b % 16) <<< 2), 61]
  | a :: b :: c :: rest =>
    b64Char (a >>> 2) :: b64Char (((a % 4) <<< 4) + (b >>> 4)) ::
      b64Char (((b % 16) <<< 2) + (c >>> 6)) :: b64Char (c % 64) :: encode64 rest

/-- Base64 alphabet byte to 6-bit value (`none` for non-alphabet bytes,
including `=`). -/
def b64Val (c : Nat) : Option Nat :=
  if 65 ≤ c ∧ c ≤ 90 then some (c - 65)
  else if 97 ≤ c ∧ c ≤ 122 then some (c - 71)
  else if 48 ≤ c ∧ c ≤ 57 then some (c + 4)
  else if c = 43 then some 62
  else if c = 47 then some 63
  else none

/-- Reassemble bytes from a list of 6-bit values. -/
def decodeVals : List Nat → Bytes
  | a :: b :: c :: d :: rest =>
    ((a <<< 2) + (b >>> 4)) :: (((b % 16) <<< 4) + (c >>> 2)) :: (((c % 4) <<< 6) + d) ::
      decodeVals rest
  | [a, b, c] => [(a <<< 2) + (b >>> 4), ((b % 16) <<< 4) + (c >>> 2)]
  | [a, b] => [(a <<< 2) + (b >>> 4)]
  | _ => []

/-- Base64 decoding of a byte string. -/
def decode64 (l : Bytes) : Bytes := decodeVals (l.filterMap b64Val)

/-! ## String helpers (`std::string` operations used by the source) -/

/-- `std::string::find(needle)`: first index at which `needle` occurs in
full, or `none` (`npos`). -/
def strFind (hay needle : Bytes) : Option Nat :=
  (List.range (hay.length + 1)).find? (fun i => List.take needle.length (List.drop i hay) == needle)

/-- `std::string::substr(pos, len)` (clamping at the end). -/
def substrC (l : Bytes) (pos len : Nat) : Bytes := List.take len (List.drop pos l)

/-- 64-bit unsigned subtraction: the arithmetic done on
`std::string::size_type` offsets in the source. -/
def usub (a b : Nat) : Nat := (a + 18446744073709551616 - b) % 18446744073709551616

/-- C `isspace` on a byte. -/
def isSpaceByte (c : Nat) : Bool := c == 32 || (9 ≤ c && c ≤ 13)

/-- ASCII digit? -/
def isDigitByte (c : Nat) : Bool := 48 ≤ c && c ≤ 57

/-- Value of a digit string. -/
def digitsVal (l : Bytes) : Nat := l.foldl (fun a c => a * 10 + (c - 48)) 0

/-- C `atoi`: leading whitespace, optional sign, leading digits
(0 if none); overflow not modelled. -/
def atoi (l : Bytes) : Int :=
  let l1 := l.dropWhile isSpaceByte
  match l1 with
  | 45 :: rest => - (digitsVal (rest.takeWhile isDigitByte) : Int)
  | 43 :: rest => (digitsVal (rest.takeWhile isDigitByte) : Int)
  | _ => (digitsVal (l1.takeWhile isDigitByte) : Int)

/-! ## SASL: SCRAM challenge/response and success check

The SASL mechanisms relevant to the claims; an abstract model of the
members of `ClientBase` that the SASL code reads and writes. -/

inductive SaslMech where
  | scramSha1Plus
  | scramSha1
  | digestMd5
  | plain
  | anonymous
  | external
  | gssapi
  | ntlm
  | mechNone
deriving DecidableEq

/-- The `ClientBase` members read/written by the SASL challenge and
success paths (`m_selectedSaslMech`, `m_gs2Header`,
`m_clientFirstMessageBare`, `m_serverSignature`, `m_password`,
`m_encryption->channelBinding()`, `m_jid`, `m_authzid`). -/
structure SaslCtx where
  selectedMech : SaslMech
  gs2Header : Bytes
  clientFirstMessageBare : Bytes
  serverSignature : Bytes
  password : Bytes
  channelBinding : Bytes
  jidUsername : Bytes
  jidServer : Bytes
  authzidSet : Bool
  authzidBare : Bytes

/-- Modelled from the spec: `prep::saslprep` (prep.cpp is not part of
the given source); the spec describes it as the SASLprep Unicode
normalization profile (RFC 4013), which is the identity on the ASCII
byte strings arising in all claims here.  Modelled as the
always-succeeding identity. -/
def saslprep (s : Bytes) : Option Bytes := some s

/-- Parse the SCRAM server-first message exactly as the source does:
positions of `r=`, `s=`, `i=` via `find`, then `substr` with
`size_type` subtraction; returns `(snonce, salt, iter)`. -/
def parseServerFirst (decoded : Bytes) : Option (Bytes × Bytes × Int) :=
  match strFind decoded (ascii "r="), strFind decoded (ascii "s="), strFind decoded (ascii "i=") with
  | some posn, some poss, some posi =>
    let snonce := substrC decoded (posn + 2) (usub poss (posn + 3))
    let salt := decode64 (substrC decoded (poss + 2) (usub posi (poss + 3)))
    let iter := atoi (substrC decoded (posi + 2) (usub decoded.length (posi + 2)))
    some (snonce, salt, iter)
  | _, _, _ => none

/-- The SCRAM branch of `ClientBase::processSASLChallenge`: parse the
server-first message, derive the keys, remember the server signature
and produce the `<response/>` character data.  The first component is
the updated context, the second the response character data (`none`
models an empty `<response/>`, i.e. a parse/prep failure `break`). -/
def scramChallenge (ctx : SaslCtx) (decoded : Bytes) : SaslCtx × Option Bytes :=
  match parseServerFirst decoded with
  | Option.none => (ctx, Option.none)
  | some (snonce, salt, iter) =>
    match saslprep ctx.password with
    | Option.none => (ctx, Option.none)
    | some pwp =>
      let saltedPwd := hi pwp salt iter.toNat
      let ck := hmac saltedPwd (ascii "Client Key")
      let storedKey := sha1 ck
      let cfinal := (if ctx.selectedMech = SaslMech.scramSha1Plus then
          ascii "c=" ++ encode64 (ctx.gs2Header ++ ctx.channelBinding)
        else ascii "c=biws") ++ ascii ",r=" ++ snonce
      let authMessage := ctx.clientFirstMessageBare ++ ascii "," ++ decoded ++ ascii "," ++ cfinal
      let clientSignature := hmac storedKey authMessage
      let clientProof := List.zipWith (fun a b => a ^^^ b) ck clientSignature
      let serverKey := hmac saltedPwd (ascii "Server Key")
      let serverSignature := hmac serverKey authMessage
      ({ ctx with serverSignature := serverSignature },
        some (encode64 (cfinal ++ ascii ",p=" ++ encode64 clientProof)))

/-- `ClientBase::processSASLSuccess`: only the SCRAM mechanisms verify
the `v=...` payload against the remembered server signature; every
other mechanism accepts unconditionally. -/
def processSASLSuccess (ctx : SaslCtx) (payload : Bytes) : Bool :=
  if ctx.selectedMech = SaslMech.scramSha1 ∨ ctx.selectedMech = SaslMech.scramSha1Plus then
    let decoded := decode64 payload
    if decoded.length < 3 ∨ decode64 (List.drop 2 decoded) ≠ ctx.serverSignature then false
    else true
  else true

/-! ## MD5

Modelled from the spec: the `MD5` class (md5.cpp is not part of the
given source); standard RFC 1321 MD5, used by the DIGEST-MD5 branch. -/

/-- The 64 MD5 sine-table constants. -/
def md5K : List Nat := [3614090360, 3905402710, 606105819, 3250441966, 4118548399, 1200080426, 2821735955, 4249261313, 1770035416, 2336552879, 4294925233, 2304563134, 1804603682, 4254626195, 2792965006, 1236535329, 4129170786, 3225465664, 643717713, 3921069994, 3593408605, 38016083, 3634488961, 3889429448, 568446438, 3275163606, 4107603335, 1163531501, 2850285829, 4243563512, 1735328473, 2368359562, 4294588738, 2272392833, 1839030562, 4259657740, 2763975236, 1272893353, 4139469664, 3200236656, 681279174, 3936430074, 3572445317, 76029189, 3654602809, 3873151461, 530742520, 3299628645, 4096336452, 1126891415, 2878612391, 4237533241, 1700485571, 2399980690, 4293915773, 2240044497, 1873313359, 4264355552, 2734768916, 1309151649, 4149444226, 3174756917, 718787259, 3951481745]

/-- The 64 MD5 per-round rotation amounts. -/
def md5S : List Nat := [7, 12, 17, 22, 7, 12, 17, 22, 7, 12, 17, 22, 7, 12, 17, 22, 5, 9, 14, 20, 5, 9, 14, 20, 5, 9, 14, 20, 5, 9, 14, 20, 4, 11, 16, 23, 4, 11, 16, 23, 4, 11, 16, 23, 4, 11, 16, 23, 6, 10, 15, 21, 6, 10, 15, 21, 6, 10, 15, 21, 6, 10, 15, 21]

/-- The MD5 round functions F, G, H, I. -/
def md5F (i b c d : Nat) : Nat :=
  if i < 16 then (b &&& c) ||| ((b ^^^ 4294967295) &&& d)
  else if i < 32 then (d &&& b) ||| ((d ^^^ 4294967295) &&& c)
  else if i < 48 then b ^^^ c ^^^ d
  else c ^^^ (b ||| (d ^^^ 4294967295))

/-- The MD5 message-word schedule index. -/
def md5G (i : Nat) : Nat :=
  if i < 16 then i
  else if i < 32 then (5 * i + 1) % 16
  else if i < 48 then (3 * i + 5) % 16
  else (7 * i) % 16

/-- 32-bit left rotation (plain formulation). -/
def rotl32 (n x : Nat) : Nat := ((x <<< n) % M32) ||| (x >>> (32 - n))

/-- The 16 little-endian message words of a 64-byte block. -/
def md5Words (block : Bytes) : List Nat :=
  (List.range 16).map (fun j =>
    block.getD (4 * j) 0 + 256 * block.getD (4 * j + 1) 0 +
      65536 * block.getD (4 * j + 2) 0 + 16777216 * block.getD (4 * j + 3) 0)

/-- The 64 MD5 rounds. -/
def md5Rounds : Nat → Nat → Nat × Nat × Nat × Nat → List Nat → Nat × Nat × Nat × Nat
  | 0, _, st, _ => st
  | fuel + 1, i, (a, b, c, d), w =>
    let f := (md5F i b c d + a + md5K.getD i 0 + w.getD (md5G i) 0) % M32
    md5Rounds fuel (i + 1) (d, (b + rotl32 (md5S.getD i 0) f) % M32, b, c) w

/-- Compress one 64-byte block into the MD5 state. -/
def md5Compress (st : Nat × Nat × Nat × Nat) (block : Bytes) : Nat × Nat × Nat × Nat :=
  let (a0, b0, c0, d0) := st
  let (a, b, c, d) := md5Rounds 64 0 st (md5Words block)
  ((a0 + a) % M32, (b0 + b) % M32, (c0 + c) % M32, (d0 + d) % M32)

/-- Split a byte string into 64-byte chunks (with fuel). -/
def chunks64Aux : Nat → Bytes → List Bytes
  | 0, _ => []
  | _, [] => []
  | fuel + 1, l => List.take 64 l :: chunks64Aux fuel (List.drop 64 l)

/-- Split a byte string into 64-byte chunks. -/
def chunks64 (l : Bytes) : List Bytes := chunks64Aux l.length l

/-- MD5 padding: `0x80`, zeros, 64-bit little-endian bit length. -/
def md5Pad (msg : Bytes) : Bytes :=
  let len := msg.length
  let zeros := (119 - len % 64) % 64
  msg ++ [128] ++ List.replicate zeros 0 ++
    (List.range 8).map (fun i => ((8 * len) >>> (8 * i)) &&& 255)

/-- Little-endian bytes of a 32-bit word. -/
def wordLE (w : Nat) : Bytes := [w &&& 255, (w >>> 8) &&& 255, (w >>> 16) &&& 255, (w >>> 24) &&& 255]

/-- MD5 of a byte string: the 16-byte binary digest (`MD5::binary()`). -/
def md5 (msg : Bytes) : Bytes :=
  let (a, b, c, d) := (chunks64 (md5Pad msg)).foldl md5Compress
    (1732584193, 4023233417, 2562383102, 271733878)
  wordLE a ++ wordLE b ++ wordLE c ++ wordLE d

/-- Lowercase hex of a byte string (`MD5::hex()` output form). -/
def toHex (l : Bytes) : Bytes :=
  l.foldr (fun b acc =>
    (if b >>> 4 < 10 then 48 + (b >>> 4) else 87 + (b >>> 4)) ::
      (if b % 16 < 10 then 48 + b % 16 else 87 + b % 16) :: acc) []

/-! ## DIGEST-MD5 challenge and full `processSASLChallenge` -/

/-- `std::string::find(char, start)`. -/
def findCharFrom (l : Bytes) (c : Nat) (start : Nat) : Option Nat :=
  (List.range l.length).find? (fun i => decide (start ≤ i) && (l.getD i 0 == c))

/-- The `while( decoded[end-1] == 0x5C ) end = decoded.find(0x22, end+1)`
loop skipping backslash-escaped quotes (fuel-bounded; a failing `find`,
which is out-of-range indexing in the source, is modelled as the end of
the string). -/
def nonceEndLoop : Nat → Bytes → Nat → Nat
  | 0, _, e => e
  | fuel + 1, l, e =>
    if l.getD (e - 1) 0 == 92 then
      match findCharFrom l 34 (e + 1) with
      | some e2 => nonceEndLoop fuel l e2
      | Option.none => l.length
    else e

/-- The DIGEST-MD5 branch of `processSASLChallenge`.  Result: `none`
models the early `return` (no `nonce=` in the challenge, no response
sent); `some Option.none` models an empty `<response/>` (the `rspauth`
final challenge, answered without any verification); `some (some b)`
a response with character data `b`. -/
def digestMd5Challenge (ctx : SaslCtx) (cnonce : Bytes) (decoded : Bytes) : Option (Option Bytes) :=
  if List.take 7 decoded = ascii "rspauth" then some Option.none
  else
    let realm := match strFind decoded (ascii "realm=") with
      | some pos => match findCharFrom decoded 34 (pos + 7) with
        | some e => substrC decoded (pos + 7) (usub e (pos + 7))
        | Option.none => substrC decoded (pos + 7) decoded.length
      | Option.none => ctx.jidServer
    match strFind decoded (ascii "nonce=") with
    | Option.none => Option.none
    | some pos =>
      let e0 := match findCharFrom decoded 34 (pos + 7) with
        | some e => e
        | Option.none => decoded.length
      let e1 := nonceEndLoop decoded.length decoded e0
      let nonce := substrC decoded (pos + 7) (usub e1 (pos + 7))
      let a1h := md5 (ctx.jidUsername ++ ascii ":" ++ realm ++ ascii ":" ++ ctx.password)
      let a1 := toHex (md5 (a1h ++ ascii ":" ++ nonce ++ ascii ":" ++ cnonce))
      let a2 := toHex (md5 (ascii "AUTHENTICATE:xmpp/" ++ ctx.jidServer))
      let rsp := toHex (md5 (a1 ++ ascii ":" ++ nonce ++ ascii ":00000001:" ++ cnonce ++ ascii ":auth:" ++ a2))
      let response := ascii "username=\"" ++ ctx.jidUsername ++ ascii "\",realm=\"" ++ realm ++
        ascii "\",nonce=\"" ++ nonce ++ ascii "\",cnonce=\"" ++ cnonce ++
        ascii "\",nc=00000001,qop=auth,digest-uri=\"xmpp/" ++ ctx.jidServer ++
        ascii "\",response=" ++ rsp ++ ascii ",charset=utf-8" ++
        (if ctx.authzidSet then ascii ",authzid=" ++ ctx.authzidBare else [])
      some (some (encode64 response))

/-- `ClientBase::processSASLChallenge` (non-Windows build: the GSSAPI
and NTLM branches only log and send an empty `<response/>`).  Returns
the updated context and the response: `none` = no response sent,
`some Option.none` = empty `<response/>`, `some (some b)` = response
with character data `b`. -/
def processSASLChallenge (ctx : SaslCtx) (cnonce : Bytes) (challenge : Bytes) :
    SaslCtx × Option (Option Bytes) :=
  let decoded := decode64 challenge
  match ctx.selectedMech with
  | SaslMech.scramSha1Plus | SaslMech.scramSha1 =>
    let r := scramChallenge ctx decoded
    (r.1, some r.2)
  | SaslMech.digestMd5 => (ctx, digestMd5Challenge ctx cnonce decoded)
  | _ => (ctx, some Option.none)

/-! ## `ClientBase::startSASL`: the initial `<auth/>` element -/

/-- The `ClientBase` members read by `startSASL`:
`(m_availableSaslMechs & SaslMechScramSha1Plus) == SaslMechScramSha1Plus`
(the mechanism enum itself is declared outside the given source, so the
bit test is modelled as a `Bool`), `m_authzid`, `m_authcid`,
`m_jid.username()`, `m_password`,
`m_encryption->channelBindingType()`. -/
structure SaslStartCtx where
  availScramSha1Plus : Bool
  authzidSet : Bool
  authzidBare : Bytes
  authcid : Bytes
  username : Bytes
  password : Bytes
  channelBindingType : Bytes

/-- The `<auth/>` element: mechanism attribute and character data. -/
structure AuthTag where
  mechanism : Bytes
  cdata : Option Bytes
deriving DecidableEq

/-- The gs2 header built by the SCRAM branch of `startSASL`. -/
def scramGs2Header (plus : Bool) (c : SaslStartCtx) : Bytes :=
  (if plus then ascii "p=" ++ c.channelBindingType ++ ascii ","
   else if ¬ c.availScramSha1Plus then ascii "y," else ascii "n,") ++
  (if c.authzidSet then
    match saslprep c.authzidBare with
    | some t => ascii "a=" ++ t
    | Option.none => []
  else []) ++ ascii ","

/-- The client-first-message-bare built by the SCRAM branch of
`startSASL` (`nonce` stands for the `getRandom()` result). -/
def scramClientFirstBare (c : SaslStartCtx) (nonce : Bytes) : Bytes :=
  ascii "n=" ++
  (if c.authcid ≠ [] then
    match saslprep c.authcid with
    | some t => t
    | Option.none => match saslprep c.username with
      | some t => t
      | Option.none => []
  else
    match saslprep c.username with
    | some t => t
    | Option.none => []) ++
  ascii ",r=" ++ nonce

/-- The PLAIN credential string:
`authzid? + NUL + (authcid | username) + NUL + password`. -/
def plainCredentials (c : SaslStartCtx) : Bytes :=
  (if c.authzidSet then c.authzidBare else []) ++ [0] ++
    (if c.authcid ≠ [] then c.authcid else c.username) ++ [0] ++ c.password

/-- `ClientBase::startSASL` (non-Windows build), producing the
`<auth/>` element.  `nonce` models `getRandom()`, `jidBare` models
`m_jid.bare()`. -/
def startSASL (mech : SaslMech) (c : SaslStartCtx) (nonce : Bytes) (jidBare : Bytes) : AuthTag :=
  match mech with
  | SaslMech.scramSha1 =>
    ⟨ascii "SCRAM-SHA-1", some (encode64 (scramGs2Header false c ++ scramClientFirstBare c nonce))⟩
  | SaslMech.scramSha1Plus =>
    ⟨ascii "SCRAM-SHA-1-PLUS", some (encode64 (scramGs2Header true c ++ scramClientFirstBare c nonce))⟩
  | SaslMech.digestMd5 => ⟨ascii "DIGEST-MD5", Option.none⟩
  | SaslMech.plain => ⟨ascii "PLAIN", some (encode64 (plainCredentials c))⟩
  | SaslMech.anonymous => ⟨ascii "ANONYMOUS", Option.none⟩
  | SaslMech.external =>
    ⟨ascii "EXTERNAL", some (encode64 (if c.authzidSet then c.authzidBare else jidBare))⟩
  | _ => ⟨[], Option.none⟩

/-! ## Stream header version check (`ClientBase::checkStreamVersion`,
`ClientBase::handleTag` stream-root branch) -/

inductive ConnectionError where
  | connNoError
  | connStreamError
  | connStreamVersionError
  | connStreamClosed
  | connParseError
  | connTlsFailed
  | connNotConnected
  | connUserDisconnected
deriving DecidableEq

/-- `ClientBase::checkStreamVersion`: reject an empty version; parse the
major number as `atoi` of the text before the first dot when that dot
exists at a nonzero position (else 0); accept iff the client major
(`XMPP_STREAM_VERSION_MAJOR = "1"`) is ≥ the parsed major. -/
def checkStreamVersion (version : Bytes) : Bool :=
  if version = [] then false
  else
    let myMajor := atoi (ascii "1")
    let major : Int :=
      match strFind version (ascii ".") with
      | some dot => if version ≠ [] ∧ dot ≠ 0 then atoi (List.take dot version) else 0
      | Option.none => 0
    myMajor ≥ major

/-- `Tag::findAttribute`: the attribute value, or the empty string. -/
def findAttribute (attrs : List (Bytes × Bytes)) (name : Bytes) : Bytes :=
  match attrs.find? (fun p => p.1 == name) with
  | some p => p.2
  | Option.none => []

/-- The `<stream:stream>` root branch of `ClientBase::handleTag`:
check the version; on failure disconnect with
`ConnStreamVersionError` (leaving `m_sid` unchanged, not reaching
`handleStartNode`); on success record `m_sid` from the `id` attribute
and call `handleStartNode`.  Result: (disconnect reason, `m_sid`
afterwards, whether `handleStartNode` was reached). -/
def handleStreamStart (sid0 : Bytes) (attrs : List (Bytes × Bytes)) :
    Option ConnectionError × Bytes × Bool :=
  if ¬ checkStreamVersion (findAttribute attrs (ascii "version")) then
    (some ConnectionError.connStreamVersionError, sid0, false)
  else
    (Option.none, findAttribute attrs (ascii "id"), true)

/-! ## IQ send tracking and dispatch (`ClientBase::send(IQ&,...)`,
`ClientBase::notifyIqHandlers`) -/

inductive IqType where
  | get
  | set
  | result
  | error
  | invalid
deriving DecidableEq

/-- `ClientBase::TrackStruct`: handler (by identity token), context,
delete-after-use flag. -/
structure TrackStruct where
  ih : Nat
  context : Int
  del : Bool
deriving DecidableEq

/-- The IQ fields used by sending and dispatch (`origin` is
`iq.from()`; extensions by their integer extension type). -/
structure IQStanza where
  id : Bytes
  subtype : IqType
  origin : Bytes
  extensions : List Int

/-- `std::map<std::string, TrackStruct>::find`. -/
def mapFind (m : List (Bytes × TrackStruct)) (k : Bytes) : Option TrackStruct :=
  (m.find? (fun p => p.1 == k)).map (fun p => p.2)

/-- `map[k] = v`: replace or append. -/
def mapInsert (m : List (Bytes × TrackStruct)) (k : Bytes) (v : TrackStruct) :
    List (Bytes × TrackStruct) :=
  match m with
  | [] => [(k, v)]
  | p :: rest => if p.1 == k then (k, v) :: rest else p :: mapInsert rest k v

/-- `map.erase(k)`. -/
def mapErase (m : List (Bytes × TrackStruct)) (k : Bytes) : List (Bytes × TrackStruct) :=
  m.filter (fun p => ¬ p.1 == k)

/-- The `ClientBase` state driving IQ correlation: the id-handler map,
the per-extension-type handler multimap (key, handler) in insertion
order, and the id generator (`m_uniqueBaseId`, `m_nextId`). -/
structure IqState where
  iqIDHandlers : List (Bytes × TrackStruct)
  iqExtHandlers : List (Int × Nat)
  uniqueBaseId : Bytes
  nextId : Nat

/-- Lowercase `%08x` of a 32-bit number. -/
def hex8 (n : Nat) : Bytes :=
  (List.range 8).map (fun i =>
    let v := ((n % 4294967296) >>> (4 * (7 - i))) &&& 15
    if v < 10 then 48 + v else 87 + v)

/-- `ClientBase::getID`: `m_uniqueBaseId` (40 hex chars) followed by the
incremented counter as 8 lowercase hex chars. -/
def getID (st : IqState) : Bytes × IqState :=
  (st.uniqueBaseId ++ hex8 (st.nextId + 1), { st with nextId := st.nextId + 1 })

/-- `ClientBase::send(IQ&, IqHandler*, int context, bool del)`: with a
handler and a Get/Set subtype, assign a fresh id when empty and record
the track in the id map.  Result: new state and the IQ as serialized. -/
def sendIqWithHandler (st : IqState) (iq : IQStanza) (ih : Option Nat) (context : Int)
    (del : Bool) : IqState × IQStanza :=
  match ih with
  | some h =>
    if iq.subtype = IqType.set ∨ iq.subtype = IqType.get then
      let p := if iq.id = [] then
          (let r := getID st; ({ iq with id := r.1 }, r.2))
        else (iq, st)
      ({ p.2 with iqIDHandlers := mapInsert p.2.iqIDHandlers p.1.id ⟨h, context, del⟩ }, p.1)
    else (st, iq)
  | Option.none => (st, iq)

inductive StanzaErrorType where
  | typeAuth
  | typeCancel
  | typeContinue
  | typeModify
  | typeWait
deriving DecidableEq

inductive StanzaError where
  | featureNotImplemented
  | serviceUnavailable
deriving DecidableEq

/-- Observable actions of `notifyIqHandlers`. -/
inductive IqEvent where
  | handleIqID (ih : Nat) (iq : IQStanza) (context : Int)
  | deleteHandler (ih : Nat)
  | askedHandleIq (ih : Nat) (iq : IQStanza)
  | sendError (dest : Bytes) (id : Bytes) (t : StanzaErrorType) (e : StanzaError)

/-- `equal_range` of the extension-handler multimap: the handlers
registered for `ext`, in insertion order. -/
def handlersFor (reg : List (Int × Nat)) (ext : Int) : List Nat :=
  (reg.filter (fun p => p.1 == ext)).map (fun p => p.2)

/-- Ask handlers in order until one returns `true` (`oracle` models
each handler identity token to its `handleIq` result). -/
def askSeq (oracle : Nat → IQStanza → Bool) (iq : IQStanza) : List Nat → List IqEvent × Bool
  | [] => ([], false)
  | h :: rest =>
    if oracle h iq then ([IqEvent.askedHandleIq h iq], true)
    else
      let r := askSeq oracle iq rest
      (IqEvent.askedHandleIq h iq :: r.1, r.2)

/-- The fallthrough part of `ClientBase::notifyIqHandlers` (after the
id-map branch): empty-extensions error reply, extension-handler
iteration, service-unavailable reply. -/
def notifyIqRest (st : IqState) (oracle : Nat → IQStanza → Bool) (iq : IQStanza) :
    IqState × List IqEvent :=
  if iq.extensions = [] then
    if iq.subtype = IqType.get ∨ iq.subtype = IqType.set then
      (st, [IqEvent.sendError iq.origin iq.id StanzaErrorType.typeCancel
        StanzaError.featureNotImplemented])
    else (st, [])
  else
    let hs := (iq.extensions.map (handlersFor st.iqExtHandlers)).flatten
    let r := askSeq oracle iq hs
    if ¬ r.2 ∧ (iq.subtype = IqType.get ∨ iq.subtype = IqType.set) then
      (st, r.1 ++ [IqEvent.sendError iq.origin iq.id StanzaErrorType.typeCancel
        StanzaError.serviceUnavailable])
    else (st, r.1)

/-- `ClientBase::notifyIqHandlers`. -/
def notifyIqHandlers (st : IqState) (oracle : Nat → IQStanza → Bool) (iq : IQStanza) :
    IqState × List IqEvent :=
  match mapFind st.iqIDHandlers iq.id with
  | some t =>
    if iq.subtype = IqType.result ∨ iq.subtype = IqType.error then
      ({ st with iqIDHandlers := mapErase st.iqIDHandlers iq.id },
        IqEvent.handleIqID t.ih iq t.context ::
          (if t.del then [IqEvent.deleteHandler t.ih] else []))
    else notifyIqRest st oracle iq
  | Option.none => notifyIqRest st oracle iq

/-! ## Stream management queue (`ClientBase::checkQueue`,
`ClientBase::send(Tag*, bool, bool)`) -/

/-- The stream-management state: `smEnabled` models
`m_smContext >= CtxSMEnabled` (the `SMContext` enum lives in the
header, outside the given source), `m_smSent`, and the ordered queue
`m_smQueue` (key-ascending, as `std::map` iterates).  Queued tags are
modelled by their serialized XML. -/
structure SMState where
  smEnabled : Bool
  smSent : Nat
  smQueue : List (Nat × Bytes)

/-- `ClientBase::send(Tag*, queue, del)`: emit the tag XML; when
`queue` and stream management is enabled, enqueue under `++m_smSent`. -/
def sendTagQ (st : SMState) (tag : Bytes) (queue : Bool) : SMState × List Bytes :=
  if queue ∧ st.smEnabled then
    ({ st with smSent := st.smSent + 1, smQueue := st.smQueue ++ [(st.smSent + 1, tag)] }, [tag])
  else (st, [tag])

/-- The `checkQueue` loop body over the ordered queue: purge keys
≤ `handled`; when `resend`, re-send (emit) entries with keys >
`handled` while keeping them queued. -/
def checkQueueAux (handled : Int) (resend : Bool) :
    List (Nat × Bytes) → List (Nat × Bytes) × List Bytes
  | [] => ([], [])
  | (k, t) :: rest =>
    let r := checkQueueAux handled resend rest
    if (k : Int) ≤ handled then (r.1, r.2)
    else if resend ∧ (k : Int) > handled then ((k, t) :: r.1, t :: r.2)
    else ((k, t) :: r.1, r.2)

/-- `ClientBase::checkQueue`: nothing happens unless stream management
is enabled and `handled ≥ 0`.  Result: new state and the re-sent XML
in queue order. -/
def checkQueue (st : SMState) (handled : Int) (resend : Bool) : SMState × List Bytes :=
  if ¬ st.smEnabled ∨ handled < 0 then (st, [])
  else
    let r := checkQueueAux handled resend st.smQueue
    ({ st with smQueue := r.1 }, r.2)

/-! ## The outbound transform chain (`ClientBase::send(const
std::string&)`, `handleCompressedData`, `handleEncryptedData`) -/

/-- Connection/encryption/compression presence and activity flags, and
the connection state (0 = disconnected, 1 = connecting,
2 = connected). -/
structure ChainState where
  hasConnection : Bool
  connState : Nat
  hasEncryption : Bool
  encryptionActive : Bool
  hasCompression : Bool
  compressionActive : Bool

/-- What the chain hands to each stage. -/
inductive ChainEvent where
  | toCompressor (d : Bytes)
  | toEncryptor (d : Bytes)
  | toSocket (d : Bytes)
deriving DecidableEq

/-- `ClientBase::handleEncryptedData`: ciphertext goes to the socket. -/
def handleEncryptedData (st : ChainState) (d : Bytes) : List ChainEvent :=
  if st.hasConnection then [ChainEvent.toSocket d] else []

/-- `ClientBase::handleCompressedData`: compressed bytes go to the
encryption engine when active, else to the socket. -/
def handleCompressedData (st : ChainState) (enc : Bytes → Bytes) (d : Bytes) : List ChainEvent :=
  if st.hasEncryption ∧ st.encryptionActive then
    ChainEvent.toEncryptor d :: handleEncryptedData st (enc d)
  else if st.hasConnection then [ChainEvent.toSocket d]
  else []

/-- `ClientBase::send(const std::string&)`: only in state Connected;
compression first when present and active (its output re-enters via
`handleCompressedData`), else encryption when present and active, else
straight to the socket.  `comp`/`enc` model the engines' transforms
(whose callbacks are synchronous). -/
def sendXml (st : ChainState) (comp enc : Bytes → Bytes) (xml : Bytes) : List ChainEvent :=
  if st.hasConnection ∧ st.connState = 2 then
    if st.hasCompression ∧ st.compressionActive then
      ChainEvent.toCompressor xml :: handleCompressedData st enc (comp xml)
    else if st.hasEncryption ∧ st.encryptionActive then
      ChainEvent.toEncryptor xml :: handleEncryptedData st (enc xml)
    else [ChainEvent.toSocket xml]
  else []

/-! ## `ClientBase::disconnect` -/

/-- Observable actions of `disconnect(reason)`. -/
inductive DiscoEvent where
  | sendStreamClose
  | connDisconnect
  | connCleanup
  | encCleanup
  | compCleanup
  | onDisconnect (listener : Nat) (e : ConnectionError)

/-- The `ClientBase` state read and written by `disconnect`: the
connection (with its state) if any, engine presence, activity flags,
stream-management counters, and the registered connection listeners in
order. -/
structure DiscoState where
  conn : Option Nat
  hasEncryption : Bool
  hasCompression : Bool
  encryptionActive : Bool
  compressionActive : Bool
  smSent : Nat
  smHandled : Nat
  listeners : List Nat

/-- `ClientBase::disconnect(reason)`: no-op without a connection in
state ≥ Connecting; otherwise attempt the closing `</stream:stream>`
unless the reason is `ConnTlsFailed`, shut down and clean up the
connection and the crypto/compression stages, reset the activity flags
and `m_smSent`, and notify every connection listener.
`notifyOnDisconnect` then calls `init()`, whose `cleanup()` — declared
outside the given source, modelled from the spec ("state reset via
cleanup() on each disconnect", "zeroes SM counters") — resets the
remaining stream-management counter `m_smHandled`. -/
def disconnect (st : DiscoState) (reason : ConnectionError) : DiscoState × List DiscoEvent :=
  match st.conn with
  | Option.none => (st, [])
  | some cs =>
    if cs < 1 then (st, [])
    else
      let st2 := { st with encryptionActive := false, compressionActive := false, smSent := 0, smHandled := 0 }
      (st2,
        (if reason ≠ ConnectionError.connTlsFailed then [DiscoEvent.sendStreamClose] else []) ++
        [DiscoEvent.connDisconnect, DiscoEvent.connCleanup] ++
        (if st.hasEncryption then [DiscoEvent.encCleanup] else []) ++
        (if st.hasCompression then [DiscoEvent.compCleanup] else []) ++
        st.listeners.map (fun l => DiscoEvent.onDisconnect l reason))

/-! ## Claim theorems -/

/-- The version rule as the claim words it (second definition, for
comparison with the source-derived `checkStreamVersion`): the `version`
attribute must be present and its major number must be at least 1. -/
def claimedVersionOK (v : Bytes) : Prop :=
  v ≠ [] ∧ 1 ≤ atoi (List.take (match strFind v (ascii ".") with
    | some d => d
    | Option.none => v.length) v)

/-- The major version number as the code parses it: `atoi` of the text
before the first dot when that dot exists at a nonzero position,
otherwise 0. -/
def parsedMajor (v : Bytes) : Int :=
  match strFind v (ascii ".") with
  | some dot => if v ≠ [] ∧ dot ≠ 0 then atoi (List.take dot v) else 0
  | Option.none => 0

/-- The RFC 5802 paragraph 5 example server-first message (decoded). -/
def rfcServerFirst : Bytes :=
  ascii "r=fyko+d2lbbFgONRv9qkxdawL3rfcNHYJY1ZVvWVs7j,s=QSXCR+Q6sek8bf92,i=4096"

/-- The SASL context after `startSASL` for the RFC 5802 paragraph 5
example (authcid `user`, password `pencil`, no channel binding). -/
def rfcCtx : SaslCtx :=
  { selectedMech := SaslMech.scramSha1,
    gs2Header := ascii "n,,",
    clientFirstMessageBare := ascii "n=user,r=fyko+d2lbbFgONRv9qkxdawL",
    serverSignature := [],
    password := pencilKey,
    channelBinding := [],
    jidUsername := ascii "user",
    jidServer := [],
    authzidSet := false,
    authzidBare := [] }

/-- Concrete inputs used to instantiate the theorems below. -/
def wIqState : IqState := ⟨[], [], ascii "uid", 0⟩

def wIqGet : IQStanza := ⟨[], IqType.get, ascii "srv", []⟩

def wIqState2 : IqState := ⟨[(ascii "q1", ⟨5, 7, false⟩)], [], ascii "uid", 0⟩

def wIqState3 : IqState := ⟨[], [(1, 9)], ascii "uid", 0⟩

def wIqResult : IQStanza := ⟨ascii "q1", IqType.result, ascii "srv", []⟩

def wIqSet : IQStanza := ⟨ascii "q1", IqType.set, ascii "srv", []⟩

def wIqExt : IQStanza := ⟨[], IqType.get, ascii "srv", [1]⟩

def wOracle : Nat → IQStanza → Bool := fun _ _ => false

def wSM0 : SMState := ⟨false, 3, []⟩

def wSM : SMState := ⟨true, 3, [(1, ascii "a"), (2, ascii "b")]⟩

def wCh : ChainState := ⟨true, 2, true, true, true, true⟩

def wCh2 : ChainState := ⟨true, 2, true, true, false, false⟩

def wCh3 : ChainState := ⟨true, 2, false, false, false, false⟩

def wCh0 : ChainState := ⟨false, 0, true, true, true, true⟩

def wComp : Bytes → Bytes := fun b => 99 :: b

def wEnc : Bytes → Bytes := fun b => 100 :: b

def wD0 : DiscoState := ⟨Option.none, true, true, true, true, 4, 5, [8]⟩

def wD : DiscoState := ⟨some 2, true, false, true, false, 4, 5, [8, 9]⟩

/-! ## Lemmas, examples and claim theorems -/

theorem force_eq (x : Nat) (k : Nat → Nat) : force x k = k x := by
  cases x <;> rfl

example : sha1 (ascii "abc") =
    [0xa9, 0x99, 0x3e, 0x36, 0x47, 0x06, 0x81, 0x6a, 0xba, 0x3e,
     0x25, 0x71, 0x78, 0x50, 0xc2, 0x6c, 0x9c, 0xd0, 0xd8, 0x9d] := by decide!

theorem hiLoop_succ (str : Bytes) (n : Nat) (s : Nat) :
    hiLoop str (n + 1) s = hiLoop str n (hiStepN str s) := by
  show force (hiStepN str s) _ = _
  rw [force_eq]; rfl

example : hmac (ascii "key") (ascii "The quick brown fox jumps over the lazy dog") =
    [0xde, 0x7c, 0x9b, 0x85, 0xb8, 0xb7, 0x8a, 0xa6, 0xbc, 0x8a,
     0x7a, 0x36, 0xf7, 0x0a, 0x90, 0x70, 0x1c, 0x9d, 0xb4, 0xd9] := by decide!

theorem natAdd_eq (a b : Nat) : Nat.add a b = a + b := rfl

theorem natMul_eq (a b : Nat) : Nat.mul a b = a * b := rfl

theorem natMod_eq (a b : Nat) : Nat.mod a b = a % b := rfl

theorem natLand_eq (a b : Nat) : Nat.land a b = a &&& b := rfl

theorem natLor_eq (a b : Nat) : Nat.lor a b = a ||| b := rfl

theorem natXor_eq (a b : Nat) : Nat.xor a b = a ^^^ b := rfl

theorem natShiftLeft_eq (a b : Nat) : Nat.shiftLeft a b = a <<< b := rfl

theorem natShiftRight_eq (a b : Nat) : Nat.shiftRight a b = a >>> b := rfl

theorem packBytes_nil (acc : Nat) : packBytes [] acc = acc := rfl

theorem packBytes_cons (b : Nat) (l : Bytes) (acc : Nat) :
    packBytes (b :: l) acc = packBytes l (acc * 256 + b) := rfl

theorem packBytes_append (l₁ l₂ : Bytes) (acc : Nat) :
    packBytes (l₁ ++ l₂) acc = packBytes l₂ (packBytes l₁ acc) := by
  induction l₁ generalizing acc with
  | nil => rfl
  | cons b l ih => simp [packBytes_cons, ih]

theorem packBytes_shift (l : Bytes) (acc : Nat) :
    packBytes l acc = acc * 2 ^ (8 * l.length) + packBytes l 0 := by
  induction l generalizing acc with
  | nil => simp [packBytes_nil]
  | cons b l ih =>
    rw [packBytes_cons, packBytes_cons, ih, ih (0 * 256 + b)]
    simp only [List.length_cons]
    rw [show 8 * (l.length + 1) = 8 * l.length + 8 by ring, pow_add]
    ring

theorem packBytes_lt (l : Bytes) (h : ByteOK l) : packBytes l 0 < 2 ^ (8 * l.length) := by
  induction l with
  | nil => simp [packBytes_nil]
  | cons b l ih =>
    have hb : b < 256 := h b (List.mem_cons_self _ _)
    have hl : ByteOK l := fun x hx => h x (List.mem_cons_of_mem _ hx)
    rw [packBytes_cons, packBytes_shift]
    simp only [List.length_cons]
    have h1 : packBytes l 0 < 2 ^ (8 * l.length) := ih hl
    have h2 : (0 * 256 + b) * 2 ^ (8 * l.length) + packBytes l 0 < (b + 1) * 2 ^ (8 * l.length) := by
      have := Nat.add_lt_add_left h1 (b * 2 ^ (8 * l.length))
      simpa [Nat.succ_mul] using this
    calc (0 * 256 + b) * 2 ^ (8 * l.length) + packBytes l 0
        < (b + 1) * 2 ^ (8 * l.length) := h2
      _ ≤ 256 * 2 ^ (8 * l.length) := Nat.mul_le_mul_right _ hb
      _ = 2 ^ (8 * (l.length + 1)) := by rw [show 8 * (l.length + 1) = 8 + 8 * l.length by ring, pow_add]; norm_num

theorem unpackBytes_ok (n v : Nat) : ByteOK (unpackBytes n v) := by
  induction n with
  | zero => intro b hb; simp [unpackBytes] at hb
  | succ k ih =>
    intro b hb
    rw [unpackBytes] at hb
    rcases List.mem_cons.mp hb with h | h
    · subst h
      calc Nat.land (Nat.shiftRight v (8 * k)) 255 ≤ 255 := by
            rw [natLand_eq]; exact Nat.and_le_right
        _ < 256 := by norm_num
    · exact ih b h

theorem unpackBytes_length (n v : Nat) : (unpackBytes n v).length = n := by
  induction n with
  | zero => rfl
  | succ k ih => simp [unpackBytes, ih]

theorem packBytes_unpackBytes (n v acc : Nat) :
    packBytes (unpackBytes n v) acc = acc * 2 ^ (8 * n) + v % 2 ^ (8 * n) := by
  induction n generalizing acc with
  | zero => simp [unpackBytes, packBytes_nil, Nat.mod_one]
  | succ k ih =>
    rw [unpackBytes, packBytes_cons, ih]
    rw [natLand_eq, natShiftRight_eq, show (255 : Nat) = 2 ^ 8 - 1 by norm_num,
      Nat.and_pow_two_sub_one_eq_mod, Nat.shiftRight_eq_div_pow]
    have h8 : (2 : Nat) ^ (8 * (k + 1)) = 2 ^ (8 * k) * 2 ^ 8 := by
      rw [show 8 * (k + 1) = 8 * k + 8 by ring, pow_add]
    rw [h8, Nat.mod_mul]
    ring

/-- `sha1Blocks` unfolding: one more block. -/
theorem sha1Blocks_succ (n d h : Nat) :
    sha1Blocks (n + 1) d h =
      sha1Blocks n d (sha1Compress h (Nat.mod (Nat.shiftRight d (512 * n)) M512)) := by
  show force (sha1Compress h (Nat.mod (Nat.shiftRight d (512 * n)) M512)) _ = _
  rw [force_eq]; rfl

theorem sha1Blocks_zero (d h : Nat) : sha1Blocks 0 d h = h := rfl

/-- The compression output is an honest 160-bit state. -/
theorem sha1Compress_lt (h block : Nat) : sha1Compress h block < 2 ^ 160 := by
  unfold sha1Compress
  rw [force_eq]
  simp only [natAdd_eq, natMul_eq, natMod_eq, natLand_eq, natShiftRight_eq]
  rw [show P128 = 340282366920938463463374607431768211456 from by norm_num [P128, Nat.shiftLeft_eq],
    show P96 = 79228162514264337593543950336 from by norm_num [P96, Nat.shiftLeft_eq],
    show P64 = 18446744073709551616 from by norm_num [P64, Nat.shiftLeft_eq]]
  have key : ∀ x4 x3 x2 x1 x0 : Nat,
      x4 % 4294967296 * 340282366920938463463374607431768211456 +
        (x3 % 4294967296 * 79228162514264337593543950336 +
          (x2 % 4294967296 * 18446744073709551616 +
            (x1 % 4294967296 * 4294967296 + x0 % 4294967296))) < 2 ^ 160 := by
    intro x4 x3 x2 x1 x0
    have hp : (2:Nat) ^ 160 = 1461501637330902918203684832716283019655932542976 := by norm_num
    rw [hp]
    omega
  exact key _ _ _ _ _

/-- All chained compressions stay below `2^160`. -/
theorem sha1Blocks_lt (n d h : Nat) (hh : h < 2 ^ 160) : sha1Blocks n d h < 2 ^ 160 := by
  induction n generalizing h with
  | zero => exact hh
  | succ k ih => rw [sha1Blocks_succ]; exact ih _ (sha1Compress_lt _ _)

theorem sha1N_lt (msg : Bytes) : sha1N msg < 2 ^ 160 :=
  sha1Blocks_lt _ _ _ (by norm_num [sha1IV, P128, P96, P64, Nat.shiftLeft_eq])

theorem sha1Pad_fst (msg : Bytes) :
    (sha1Pad msg).1 = (msg.length + 1 + (119 - msg.length % 64) % 64 + 8) / 64 := rfl

theorem sha1Pad_snd (msg : Bytes) :
    (sha1Pad msg).2 =
      (packBytes msg 0 * 256 + 128) <<< (8 * ((119 - msg.length % 64) % 64 + 8)) + 8 * msg.length := rfl

/-- Hashing a 64-byte prefix followed by a 20-byte tail is compressing
the prefix block and then the padded tail block. -/
theorem sha1N_split (pre m : Bytes) (hp : pre.length = 64) (hm : m.length = 20)
    (bp : ByteOK pre) (bm : ByteOK m) :
    sha1N (pre ++ m) =
      sha1Compress (sha1Compress sha1IV (packBytes pre 0)) (blockOf (packBytes m 0)) := by
  have hX : packBytes pre 0 < 2 ^ 512 := by
    have := packBytes_lt pre bp; rw [hp] at this; exact this
  have hM : packBytes m 0 < 2 ^ 160 := by
    have := packBytes_lt m bm; rw [hm] at this; exact this
  have hlen : (pre ++ m).length = 84 := by simp [hp, hm]
  have hpack : packBytes (pre ++ m) 0 = packBytes pre 0 * 2 ^ 160 + packBytes m 0 := by
    rw [packBytes_append, packBytes_shift m (packBytes pre 0), hm]
  have hfst : (sha1Pad (pre ++ m)).1 = 2 := by rw [sha1Pad_fst, hlen]
  have hlow : (packBytes m 0 * 256 + 128) * 2 ^ 344 + 672 < 2 ^ 512 := by
    have h4 : packBytes m 0 * 256 + 128 + 1 ≤ 2 ^ 168 := by
      have : (2:Nat) ^ 168 = 2 ^ 160 * 256 := by norm_num [← pow_add]
      omega
    have h5 : (packBytes m 0 * 256 + 128) * 2 ^ 344 + 2 ^ 344 ≤ 2 ^ 168 * 2 ^ 344 := by
      calc (packBytes m 0 * 256 + 128) * 2 ^ 344 + 2 ^ 344
          = (packBytes m 0 * 256 + 128 + 1) * 2 ^ 344 := by ring
        _ ≤ 2 ^ 168 * 2 ^ 344 := Nat.mul_le_mul_right _ h4
    have h6 : (2:Nat) ^ 168 * 2 ^ 344 = 2 ^ 512 := by norm_num [← pow_add]
    have h7 : (672:Nat) ≤ 2 ^ 344 := by norm_num
    omega
  have hsnd : (sha1Pad (pre ++ m)).2 =
      packBytes pre 0 * 2 ^ 512 + ((packBytes m 0 * 256 + 128) * 2 ^ 344 + 672) := by
    rw [sha1Pad_snd, hpack, hlen, Nat.shiftLeft_eq]
    norm_num [← pow_add]
    ring
  have hM512 : M512 = 2 ^ 512 := by norm_num [M512, Nat.shiftLeft_eq]
  show sha1Blocks (sha1Pad (pre ++ m)).1 (sha1Pad (pre ++ m)).2 sha1IV = _
  rw [hfst, hsnd, sha1Blocks_succ, sha1Blocks_succ, sha1Blocks_zero]
  rw [natMod_eq, natMod_eq, natShiftRight_eq, natShiftRight_eq, hM512]
  have e1 : (packBytes pre 0 * 2 ^ 512 + ((packBytes m 0 * 256 + 128) * 2 ^ 344 + 672)) >>> (512 * 1) % 2 ^ 512
      = packBytes pre 0 := by
    rw [show (512 * 1 : Nat) = 512 by norm_num, Nat.shiftRight_eq_div_pow]
    rw [Nat.add_comm, Nat.add_mul_div_right _ _ (show 0 < (2:Nat) ^ 512 by positivity),
      Nat.div_eq_of_lt hlow]
    rw [Nat.zero_add, Nat.mod_eq_of_lt hX]
  have e2 : (packBytes pre 0 * 2 ^ 512 + ((packBytes m 0 * 256 + 128) * 2 ^ 344 + 672)) >>> (512 * 0) % 2 ^ 512
      = blockOf (packBytes m 0) := by
    rw [show (512 * 0 : Nat) = 0 by norm_num, Nat.shiftRight_zero,
      Nat.mul_comm (packBytes pre 0) (2 ^ 512), Nat.mul_add_mod, Nat.mod_eq_of_lt hlow]
    show _ = Nat.add (Nat.mul (packBytes m 0) P352) blockTail
    rw [natAdd_eq, natMul_eq]
    norm_num [blockTail, P352, Nat.shiftLeft_eq]
    ring
  rw [e1, e2]

theorem padList_ok (key : Bytes) (bk : ByteOK key) (c : Nat) (hc : c < 256) :
    ByteOK ((key ++ List.replicate (64 - key.length) 0).map (fun b => b ^^^ c)) := by
  intro b hb
  simp only [List.mem_map] at hb
  obtain ⟨x, hx, rfl⟩ := hb
  rcases List.mem_append.mp hx with h | h
  · exact Nat.xor_lt_two_pow (n := 8) (bk x h) hc
  · have : x = 0 := List.eq_of_mem_replicate h
    subst this
    simpa using hc

theorem ipadList_length (key : Bytes) (hk : key.length ≤ 64) : (ipadList key).length = 64 := by
  simp [ipadList]; omega

theorem opadList_length (key : Bytes) (hk : key.length ≤ 64) : (opadList key).length = 64 := by
  simp [opadList]; omega

theorem ipadList_ok (key : Bytes) (bk : ByteOK key) : ByteOK (ipadList key) :=
  padList_ok key bk 54 (by norm_num)

theorem opadList_ok (key : Bytes) (bk : ByteOK key) : ByteOK (opadList key) :=
  padList_ok key bk 92 (by norm_num)

/-- `hmacN` on a 20-byte unpacked message equals the precomputed-pads
formulation. -/
theorem hmacN_fast (key : Bytes) (v : Nat) (hk : key.length ≤ 64) (bk : ByteOK key) :
    hmacN key (unpackBytes 20 v) = hmacNFast (istN key) (ostN key) v := by
  have hkey1 : (if 64 < key.length then sha1 key else key) = key := if_neg (by omega)
  have hinner : sha1N (ipadList key ++ unpackBytes 20 v) =
      sha1Compress (istN key) (blockOf (v % 2 ^ 160)) := by
    rw [sha1N_split _ _ (ipadList_length key hk) (unpackBytes_length 20 v)
      (ipadList_ok key bk) (unpackBytes_ok 20 v)]
    rw [packBytes_unpackBytes]
    rw [show (8 * 20 : Nat) = 160 from by norm_num, Nat.zero_mul, Nat.zero_add]
    rfl
  have houter : sha1N (opadList key ++ unpackBytes 20 (sha1N (ipadList key ++ unpackBytes 20 v))) =
      sha1Compress (ostN key)
        (blockOf (sha1Compress (istN key) (blockOf (v % 2 ^ 160)))) := by
    rw [sha1N_split _ _ (opadList_length key hk) (unpackBytes_length 20 _)
      (opadList_ok key bk) (unpackBytes_ok 20 _)]
    rw [packBytes_unpackBytes]
    rw [show (8 * 20 : Nat) = 160 from by norm_num, Nat.zero_mul, Nat.zero_add]
    rw [Nat.mod_eq_of_lt (sha1N_lt _), hinner]
    rfl
  show sha1N (_ ++ unpackBytes 20 (sha1N (_ ++ unpackBytes 20 v))) = _
  rw [hkey1]
  exact houter

theorem hiStepN_fast (key : Bytes) (hk : key.length ≤ 64) (bk : ByteOK key) (s : Nat) :
    hiStepN key s = hiStepFast (istN key) (ostN key) s := by
  unfold hiStepN hiStepFast
  rw [force_eq, hmacN_fast key _ hk bk]

theorem hiLoopFast_succ (ist ost : Nat) (n : Nat) (s : Nat) :
    hiLoopFast ist ost (n + 1) s = hiLoopFast ist ost n (hiStepFast ist ost s) := by
  show force (hiStepFast ist ost s) _ = _
  rw [force_eq]; rfl

theorem hiLoop_fast (key : Bytes) (hk : key.length ≤ 64) (bk : ByteOK key) (n s : Nat) :
    hiLoop key n s = hiLoopFast (istN key) (ostN key) n s := by
  induction n generalizing s with
  | zero => rfl
  | succ k ih => rw [hiLoop_succ, hiLoopFast_succ, ih, hiStepN_fast key hk bk]

theorem hiLoopFast_add (ist ost : Nat) (m n s : Nat) :
    hiLoopFast ist ost (m + n) s = hiLoopFast ist ost m (hiLoopFast ist ost n s) := by
  induction n generalizing s with
  | zero => rfl
  | succ k ih =>
    rw [show m + (k + 1) = (m + k) + 1 by ring, hiLoopFast_succ, ih, hiLoopFast_succ]

/-- `hi` through the fast loop. -/
theorem hi_fast (key salt : Bytes) (hk : key.length ≤ 64) (bk : ByteOK key) (n : Nat) :
    hi key salt (n + 1) = unpackBytes 20 (Nat.land
      (hiLoopFast (istN key) (ostN key) n
        (Nat.lor (Nat.shiftLeft (hmacN key (salt ++ [0, 0, 0, 1])) 160)
          (hmacN key (salt ++ [0, 0, 0, 1]))))
      MASK160) := by
  show unpackBytes 20 (Nat.land (hiLoop key n _) MASK160) = _
  rw [hiLoop_fast key hk bk]

theorem pencilKey_len : pencilKey.length ≤ 64 := by decide

theorem pencilKey_ok : ByteOK pencilKey := by unfold ByteOK; decide

theorem istN_pencil : istN pencilKey = 937064627668432815937435359933756401632200283012 := by decide!

theorem ostN_pencil : ostN pencilKey = 953193231874945418467983188247142141541081291094 := by decide!

theorem u1_pencil : hmacN pencilKey (rfcSalt ++ [0, 0, 0, 1]) = 1387399148016657729648552872063065704306095805337 := by decide!

/-- Fast-loop chunk 0 (255 iterations). -/
theorem hiChunk0 : hiLoopFast 937064627668432815937435359933756401632200283012 953193231874945418467983188247142141541081291094 255 2027686126457845001942081575923669867999272713113794925976174188988066779678155633200291178468249 = 1208989869169123828269498085850286777669040078465566120758164814086109938055180164324706499058649 := by decide!

/-- Fast-loop chunk 1 (256 iterations). -/
theorem hiChunk1 : hiLoopFast 937064627668432815937435359933756401632200283012 953193231874945418467983188247142141541081291094 256 1208989869169123828269498085850286777669040078465566120758164814086109938055180164324706499058649 = 2079977703031116091115997006268227344759741137718159111731543481413869281275432596379208043653725 := by decide!

/-- Fast-loop chunk 2 (256 iterations). -/
theorem hiChunk2 : hiLoopFast 937064627668432815937435359933756401632200283012 953193231874945418467983188247142141541081291094 256 2079977703031116091115997006268227344759741137718159111731543481413869281275432596379208043653725 = 1045300271296160879759179829396063471936378721921275129895083465172840738725295314406804267919316 := by decide!

/-- Fast-loop chunk 3 (256 iterations). -/
theorem hiChunk3 : hiLoopFast 937064627668432815937435359933756401632200283012 953193231874945418467983188247142141541081291094 256 1045300271296160879759179829396063471936378721921275129895083465172840738725295314406804267919316 = 1507680574407172201931487728400716119596838135040057473580948876489600154320076640366146478021524 := by decide!

/-- Fast-loop chunk 4 (256 iterations). -/
theorem hiChunk4 : hiLoopFast 937064627668432815937435359933756401632200283012 953193231874945418467983188247142141541081291094 256 1507680574407172201931487728400716119596838135040057473580948876489600154320076640366146478021524 = 969138539554104028900477508526585534851052389199671003745973209050581548395134585732363847941622 := by decide!

/-- Fast-loop chunk 5 (256 iterations). -/
theorem hiChunk5 : hiLoopFast 937064627668432815937435359933756401632200283012 953193231874945418467983188247142141541081291094 256 969138539554104028900477508526585534851052389199671003745973209050581548395134585732363847941622 = 955518287826889683406525838197221902303386735296602858329071969488559070296454288881052836421003 := by decide!

/-- Fast-loop chunk 6 (256 iterations). -/
theorem hiChunk6 : hiLoopFast 937064627668432815937435359933756401632200283012 953193231874945418467983188247142141541081291094 256 955518287826889683406525838197221902303386735296602858329071969488559070296454288881052836421003 = 1098279539327765417425508751247674672397601014968656058532864144315986879410501306818648307712440 := by decide!

/-- Fast-loop chunk 7 (256 iterations). -/
theorem hiChunk7 : hiLoopFast 937064627668432815937435359933756401632200283012 953193231874945418467983188247142141541081291094 256 1098279539327765417425508751247674672397601014968656058532864144315986879410501306818648307712440 = 858285307666066061333384164982196403320606260087795597487338498892076636629826010093360437317075 := by decide!

/-- Fast-loop chunk 8 (256 iterations). -/
theorem hiChunk8 : hiLoopFast 937064627668432815937435359933756401632200283012 953193231874945418467983188247142141541081291094 256 858285307666066061333384164982196403320606260087795597487338498892076636629826010093360437317075 = 1024043290186619796569517086964036879898222724761261001835295856077415656442375185000275595636523 := by decide!

/-- Fast-loop chunk 9 (256 iterations). -/
theorem hiChunk9 : hiLoopFast 937064627668432815937435359933756401632200283012 953193231874945418467983188247142141541081291094 256 1024043290186619796569517086964036879898222724761261001835295856077415656442375185000275595636523 = 1107150286053467881025775620677214114264216337496497407081840456523744412738349575063191359985693 := by decide!

/-- Fast-loop chunk 10 (256 iterations). -/
theorem hiChunk10 : hiLoopFast 937064627668432815937435359933756401632200283012 953193231874945418467983188247142141541081291094 256 1107150286053467881025775620677214114264216337496497407081840456523744412738349575063191359985693 = 228321520580798847086992255735828051804275827689159542532969498560884321105914020351923484517598 := by decide!

/-- Fast-loop chunk 11 (256 iterations). -/
theorem hiChunk11 : hiLoopFast 937064627668432815937435359933756401632200283012 953193231874945418467983188247142141541081291094 256 228321520580798847086992255735828051804275827689159542532969498560884321105914020351923484517598 = 1479620702107723107243905879431357966306865357843096105209327239939261331265492740222627718387402 := by decide!

/-- Fast-loop chunk 12 (256 iterations). -/
theorem hiChunk12 : hiLoopFast 937064627668432815937435359933756401632200283012 953193231874945418467983188247142141541081291094 256 1479620702107723107243905879431357966306865357843096105209327239939261331265492740222627718387402 = 633857270390080141530342188084133484774148174249810751525630139956373469044077869742276472298203 := by decide!

/-- Fast-loop chunk 13 (256 iterations). -/
theorem hiChunk13 : hiLoopFast 937064627668432815937435359933756401632200283012 953193231874945418467983188247142141541081291094 256 633857270390080141530342188084133484774148174249810751525630139956373469044077869742276472298203 = 2053954767665348022124614136985628391412164627400274450573084266746000173327221291832774676424624 := by decide!

/-- Fast-loop chunk 14 (256 iterations). -/
theorem hiChunk14 : hiLoopFast 937064627668432815937435359933756401632200283012 953193231874945418467983188247142141541081291094 256 2053954767665348022124614136985628391412164627400274450573084266746000173327221291832774676424624 = 948573079205239811601188352562602789881890848253512853557466805461084618895055735734775094590958 := by decide!

/-- Fast-loop chunk 15 (256 iterations). -/
theorem hiChunk15 : hiLoopFast 937064627668432815937435359933756401632200283012 953193231874945418467983188247142141541081291094 256 948573079205239811601188352562602789881890848253512853557466805461084618895055735734775094590958 = 653862061489219236599202000409892454823515919650061456981277364854561892765871485899756145827709 := by decide!

/-- The composed 4095 fast-loop iterations. -/
theorem hiLoop_rfc : hiLoopFast 937064627668432815937435359933756401632200283012 953193231874945418467983188247142141541081291094 4095 2027686126457845001942081575923669867999272713113794925976174188988066779678155633200291178468249 = 653862061489219236599202000409892454823515919650061456981277364854561892765871485899756145827709 := by
  rw [show (4095:Nat) = 3840 + 255 from by norm_num, hiLoopFast_add, hiChunk0,
    show (3840:Nat) = 3584 + 256 from by norm_num, hiLoopFast_add, hiChunk1,
    show (3584:Nat) = 3328 + 256 from by norm_num, hiLoopFast_add, hiChunk2,
    show (3328:Nat) = 3072 + 256 from by norm_num, hiLoopFast_add, hiChunk3,
    show (3072:Nat) = 2816 + 256 from by norm_num, hiLoopFast_add, hiChunk4,
    show (2816:Nat) = 2560 + 256 from by norm_num, hiLoopFast_add, hiChunk5,
    show (2560:Nat) = 2304 + 256 from by norm_num, hiLoopFast_add, hiChunk6,
    show (2304:Nat) = 2048 + 256 from by norm_num, hiLoopFast_add, hiChunk7,
    show (2048:Nat) = 1792 + 256 from by norm_num, hiLoopFast_add, hiChunk8,
    show (1792:Nat) = 1536 + 256 from by norm_num, hiLoopFast_add, hiChunk9,
    show (1536:Nat) = 1280 + 256 from by norm_num, hiLoopFast_add, hiChunk10,
    show (1280:Nat) = 1024 + 256 from by norm_num, hiLoopFast_add, hiChunk11,
    show (1024:Nat) = 768 + 256 from by norm_num, hiLoopFast_add, hiChunk12,
    show (768:Nat) = 512 + 256 from by norm_num, hiLoopFast_add, hiChunk13,
    show (512:Nat) = 256 + 256 from by norm_num, hiLoopFast_add, hiChunk14,
    show (256:Nat) = 0 + 256 from by norm_num, hiLoopFast_add, hiChunk15]
  rfl

/-- `hi` on the RFC 5802 example computes the RFC Hi (salted password)
value `1d96ee3a529b5a5f9e47c01f229a2cb8a6e15f7d`. -/
theorem hi_rfc : hi pencilKey rfcSalt 4096 =
    [29, 150, 238, 58, 82, 155, 90, 95, 158, 71, 192, 31, 34, 154, 44, 184, 166, 225, 95, 125] := by
  rw [show (4096:Nat) = 4095 + 1 from by norm_num,
    hi_fast pencilKey rfcSalt pencilKey_len pencilKey_ok 4095, u1_pencil,
    istN_pencil, ostN_pencil,
    show Nat.lor (Nat.shiftLeft 1387399148016657729648552872063065704306095805337 160) 1387399148016657729648552872063065704306095805337 = 2027686126457845001942081575923669867999272713113794925976174188988066779678155633200291178468249 from by decide!,
    hiLoop_rfc]
  decide!

example : encode64 (ascii "any carnal pleasure.") = ascii "YW55IGNhcm5hbCBwbGVhc3VyZS4=" := by decide

example : decode64 (ascii "YW55IGNhcm5hbCBwbGVhc3VyZS4=") = ascii "any carnal pleasure." := by decide

example : atoi (ascii "4096") = 4096 := by decide

example : atoi (ascii "  -17x") = -17 := by decide

example : toHex (md5 (ascii "abc")) = ascii "900150983cd24fb0d6963f7d28e17f72" := by decide

/-- C2 (counterexample): a `<stream:stream>` header with
`version='2.0'` satisfies the claim's rule (present, major 2 ≥ 1), yet
the code disconnects with `StreamVersionError` — the code accepts
`major ≤ 1`, not `major ≥ 1`. -/
theorem handleTag_version_counterexample :
    claimedVersionOK (ascii "2.0") ∧
    handleStreamStart [] [(ascii "version", ascii "2.0"), (ascii "id", ascii "s1")] =
      (some ConnectionError.connStreamVersionError, [], false) := by
  constructor
  · constructor
    · decide
    · decide
  · decide

/-- C2 (amended): for every stream root tag, the code records the
stream id from the `id` attribute and proceeds iff the `version`
attribute passes `checkStreamVersion`; otherwise (in particular when
the attribute is absent, i.e. empty) it disconnects with
`StreamVersionError` without recording the id; and `checkStreamVersion`
accepts exactly the nonempty versions whose parsed major number is at
most the client's major 1. -/
theorem handleTag_version_check (sid0 : Bytes) (attrs : List (Bytes × Bytes)) :
    handleStreamStart sid0 attrs =
      (if checkStreamVersion (findAttribute attrs (ascii "version")) then
        (Option.none, findAttribute attrs (ascii "id"), true)
      else (some ConnectionError.connStreamVersionError, sid0, false)) ∧
    (checkStreamVersion (findAttribute attrs (ascii "version")) = true ↔
      findAttribute attrs (ascii "version") ≠ [] ∧
        parsedMajor (findAttribute attrs (ascii "version")) ≤ 1) := by
  constructor
  · unfold handleStreamStart
    split_ifs <;> simp_all
  · unfold checkStreamVersion parsedMajor
    split_ifs with h1
    · simp [h1]
    · simp only [h1, ne_eq, not_false_iff, true_and, eq_iff_iff, true_iff]
      constructor
      · intro h
        simpa [ge_iff_le, show atoi (ascii "1") = 1 from by decide] using h
      · intro h
        simpa [ge_iff_le, show atoi (ascii "1") = 1 from by decide] using h

/-- C3 (counterexample): when SCRAM-SHA-1-PLUS is *not* among the
available mechanisms (the server does not support the PLUS variant)
and plain SCRAM-SHA-1 is started, the gs2 header begins with `y,`, not
`n,` as the claim states. -/
theorem scram_gs2_counterexample :
    List.take 2 (scramGs2Header false
      { availScramSha1Plus := false, authzidSet := false, authzidBare := [],
        authcid := [], username := ascii "user", password := [],
        channelBindingType := [] }) = ascii "y," ∧
    ascii "y," ≠ ascii "n," := by
  constructor
  · decide
  · decide

/-- C3 (amended): for SCRAM-SHA-1 the gs2 header starts with `n,` when
the PLUS variant *is* among the available mechanisms (and with `y,`
when it is not, the channel-binding guard), for SCRAM-SHA-1-PLUS it
starts with `p=<channel-binding-type>,`; an `a=<saslprep(authzid)>`
follows when an authzid is set, then the final comma; in particular
with authcid `user`, no authzid, fixed nonce
`fyko+d2lbbFgONRv9qkxdawL`, the PLUS variant available but plain
SCRAM-SHA-1 selected, the `<auth/>` element carries mechanism
`SCRAM-SHA-1` and the base64 of
`n,,n=user,r=fyko+d2lbbFgONRv9qkxdawL`. -/
theorem scram_gs2_header (c : SaslStartCtx) (nonce jidBare : Bytes) :
    (scramGs2Header false c =
      (if c.availScramSha1Plus then ascii "n," else ascii "y,") ++
        (if c.authzidSet then ascii "a=" ++ c.authzidBare else []) ++ ascii ",") ∧
    (scramGs2Header true c =
      ascii "p=" ++ c.channelBindingType ++ ascii "," ++
        (if c.authzidSet then ascii "a=" ++ c.authzidBare else []) ++ ascii ",") ∧
    (startSASL SaslMech.scramSha1 c nonce jidBare =
      ⟨ascii "SCRAM-SHA-1",
        some (encode64 (scramGs2Header false c ++ scramClientFirstBare c nonce))⟩) ∧
    (startSASL SaslMech.scramSha1
        { availScramSha1Plus := true, authzidSet := false, authzidBare := [],
          authcid := ascii "user", username := [], password := [],
          channelBindingType := [] }
        (ascii "fyko+d2lbbFgONRv9qkxdawL") [] =
      ⟨ascii "SCRAM-SHA-1", some (encode64 (ascii "n,,n=user,r=fyko+d2lbbFgONRv9qkxdawL"))⟩) := by
  refine ⟨?_, ?_, rfl, ?_⟩
  · unfold scramGs2Header saslprep
    rcases h : c.availScramSha1Plus <;> rcases h2 : c.authzidSet <;> simp
  · unfold scramGs2Header saslprep
    rcases c.authzidSet with _ | _ <;> simp
  · decide

/-- C7: `startSASL(PLAIN)` sends `<auth mechanism='PLAIN'>` whose
character data is the base64 of
`(authzid bare or empty) NUL (authcid or username) NUL password`; for
username `romeo`, password `pass`, no authzid the payload is
`AHJvbWVvAHBhc3M=`. -/
theorem plain_auth_payload (c : SaslStartCtx) (nonce jidBare : Bytes) :
    (startSASL SaslMech.plain c nonce jidBare =
      ⟨ascii "PLAIN", some (encode64 ((if c.authzidSet then c.authzidBare else []) ++ [0] ++
        (if c.authcid ≠ [] then c.authcid else c.username) ++ [0] ++ c.password))⟩) ∧
    (startSASL SaslMech.plain
        { availScramSha1Plus := false, authzidSet := false, authzidBare := [],
          authcid := [], username := ascii "romeo", password := ascii "pass",
          channelBindingType := [] } [] [] =
      ⟨ascii "PLAIN", some (ascii "AHJvbWVvAHBhc3M=")⟩) := by
  exact ⟨rfl, by decide⟩

theorem mapFind_mapInsert (m : List (Bytes × TrackStruct)) (k : Bytes) (v : TrackStruct) :
    mapFind (mapInsert m k v) k = some v := by
  induction m with
  | nil => simp [mapInsert, mapFind]
  | cons p rest ih =>
    by_cases h : p.1 == k
    · simp [mapInsert, mapFind, h]
    · simp only [mapInsert, h]
      simpa [mapFind, h] using ih

theorem mapFind_mapErase (m : List (Bytes × TrackStruct)) (k : Bytes) :
    mapFind (mapErase m k) k = Option.none := by
  induction m with
  | nil => simp [mapErase, mapFind]
  | cons p rest ih =>
    by_cases h : p.1 == k
    · simp [mapErase, mapFind, h, ih]
    · simp only [mapErase, List.filter] at ih ⊢
      simp [h, mapFind, ih]

theorem askSeq_events (oracle : Nat → IQStanza → Bool) (iq : IQStanza) (hs : List Nat) :
    ∀ e ∈ (askSeq oracle iq hs).1, ∃ h, e = IqEvent.askedHandleIq h iq := by
  induction hs with
  | nil => simp [askSeq]
  | cons h rest ih =>
    intro e he
    by_cases ho : oracle h iq
    · simp [askSeq, ho] at he
      exact ⟨h, he⟩
    · simp only [askSeq, if_neg ho, List.mem_cons] at he
      rcases he with he | he
      · exact ⟨h, he⟩
      · exact ih e he

theorem notifyIqRest_eq (st : IqState) (oracle : Nat → IQStanza → Bool) (iq : IQStanza)
    (hext : iq.extensions ≠ []) :
    notifyIqRest st oracle iq =
      (if ¬ (askSeq oracle iq
            ((iq.extensions.map (handlersFor st.iqExtHandlers)).flatten)).2 ∧
          (iq.subtype = IqType.get ∨ iq.subtype = IqType.set) then
        (st, (askSeq oracle iq
            ((iq.extensions.map (handlersFor st.iqExtHandlers)).flatten)).1 ++
          [IqEvent.sendError iq.origin iq.id StanzaErrorType.typeCancel
            StanzaError.serviceUnavailable])
      else (st, (askSeq oracle iq
          ((iq.extensions.map (handlersFor st.iqExtHandlers)).flatten)).1)) := by
  unfold notifyIqRest
  rw [if_neg hext]

theorem notifyIqRest_no_id_event (st : IqState) (oracle : Nat → IQStanza → Bool)
    (iq : IQStanza) (ih : Nat) (i : IQStanza) (c : Int) :
    IqEvent.handleIqID ih i c ∉ (notifyIqRest st oracle iq).2 := by
  intro hmem
  by_cases hext : iq.extensions = []
  · unfold notifyIqRest at hmem
    rw [if_pos hext] at hmem
    split_ifs at hmem <;> simp at hmem
  · rw [notifyIqRest_eq st oracle iq hext] at hmem
    by_cases hc : ¬ (askSeq oracle iq
          ((iq.extensions.map (handlersFor st.iqExtHandlers)).flatten)).2 ∧
        (iq.subtype = IqType.get ∨ iq.subtype = IqType.set)
    · rw [if_pos hc] at hmem
      simp only [List.mem_append, List.mem_singleton] at hmem
      rcases hmem with hmem | hmem
      · obtain ⟨h, he⟩ := askSeq_events oracle iq _ _ hmem
        simp at he
      · simp at hmem
    · rw [if_neg hc] at hmem
      obtain ⟨h, he⟩ := askSeq_events oracle iq _ _ hmem
      simp at he

/-- C4: an IQ sent as Get or Set with a handler gets a fresh id when it
had none and its id is recorded in the id-handler map; an incoming IQ
with a tracked id of subtype Result or Error fires the tracked handler
exactly once with the stored context, removes the entry, and stops
dispatch (no extension handler is asked, no error is sent); an
incoming Get or Set with a tracked id never fires the id handler. -/
theorem iq_id_correlation :
    (∀ (st : IqState) (iq : IQStanza) (h : Nat) (context : Int) (del : Bool),
      iq.subtype = IqType.set ∨ iq.subtype = IqType.get →
      mapFind (sendIqWithHandler st iq (some h) context del).1.iqIDHandlers
          (sendIqWithHandler st iq (some h) context del).2.id = some ⟨h, context, del⟩ ∧
      (sendIqWithHandler st iq (some h) context del).2.id =
        (if iq.id = [] then st.uniqueBaseId ++ hex8 (st.nextId + 1) else iq.id)) ∧
    (∀ (st : IqState) (oracle : Nat → IQStanza → Bool) (iq : IQStanza) (t : TrackStruct),
      mapFind st.iqIDHandlers iq.id = some t →
      iq.subtype = IqType.result ∨ iq.subtype = IqType.error →
      notifyIqHandlers st oracle iq =
        ({ st with iqIDHandlers := mapErase st.iqIDHandlers iq.id },
          IqEvent.handleIqID t.ih iq t.context ::
            (if t.del then [IqEvent.deleteHandler t.ih] else [])) ∧
      mapFind (mapErase st.iqIDHandlers iq.id) iq.id = Option.none) ∧
    (∀ (st : IqState) (oracle : Nat → IQStanza → Bool) (iq : IQStanza) (t : TrackStruct),
      mapFind st.iqIDHandlers iq.id = some t →
      iq.subtype = IqType.get ∨ iq.subtype = IqType.set →
      ∀ ih i c, IqEvent.handleIqID ih i c ∉ (notifyIqHandlers st oracle iq).2) := by
  refine ⟨?_, ?_, ?_⟩
  · intro st iq h context del hs
    by_cases hid : iq.id = [] <;>
      simp [sendIqWithHandler, getID, hs, hid, mapFind_mapInsert]
  · intro st oracle iq t hfind hsub
    constructor
    · simp only [notifyIqHandlers, hfind, if_pos hsub]
    · exact mapFind_mapErase _ _
  · intro st oracle iq t hfind hsub ih i c
    have hns : ¬ (iq.subtype = IqType.result ∨ iq.subtype = IqType.error) := by
      rcases hsub with hsub | hsub <;> simp [hsub]
    simp only [notifyIqHandlers, hfind, if_neg hns]
    exact notifyIqRest_no_id_event st oracle iq ih i c

theorem askSeq_spec (oracle : Nat → IQStanza → Bool) (iq : IQStanza) (hs : List Nat) :
    askSeq oracle iq hs =
      ((hs.takeWhile (fun h => ! oracle h iq) ++
          (hs.dropWhile (fun h => ! oracle h iq)).take 1).map
        (fun h => IqEvent.askedHandleIq h iq),
       hs.any (fun h => oracle h iq)) := by
  induction hs with
  | nil => simp [askSeq]
  | cons h rest ih =>
    by_cases ho : oracle h iq
    · simp [askSeq, ho, List.takeWhile_cons, List.dropWhile_cons]
    · simp [askSeq, ho, List.takeWhile_cons, List.dropWhile_cons, ih]

theorem askSeq_fst (oracle : Nat → IQStanza → Bool) (iq : IQStanza) (hs : List Nat) :
    (askSeq oracle iq hs).1 =
      ((hs.takeWhile (fun h => ! oracle h iq) ++
          (hs.dropWhile (fun h => ! oracle h iq)).take 1).map
        (fun h => IqEvent.askedHandleIq h iq)) := by
  rw [askSeq_spec]

theorem askSeq_snd (oracle : Nat → IQStanza → Bool) (iq : IQStanza) (hs : List Nat) :
    (askSeq oracle iq hs).2 = hs.any (fun h => oracle h iq) := by
  rw [askSeq_spec]

theorem notifyIqHandlers_fallthrough (st : IqState) (oracle : Nat → IQStanza → Bool)
    (iq : IQStanza) (hsub : iq.subtype = IqType.get ∨ iq.subtype = IqType.set) :
    notifyIqHandlers st oracle iq = notifyIqRest st oracle iq := by
  have hns : ¬ (iq.subtype = IqType.result ∨ iq.subtype = IqType.error) := by
    rcases hsub with hsub | hsub <;> simp [hsub]
  rcases hf : mapFind st.iqIDHandlers iq.id with _ | t
  · simp only [notifyIqHandlers, hf]
  · simp only [notifyIqHandlers, hf, if_neg hns]

/-- C5: an incoming Get or Set that reaches extension dispatch: with no
extensions the client replies feature-not-implemented/cancel to the
sender with the original id; otherwise the handlers registered for the
present extension types are asked in registration order up to and
including the first that handles it; if none handles it, the client
replies service-unavailable/cancel. -/
theorem iq_unhandled_reply :
    (∀ (st : IqState) (oracle : Nat → IQStanza → Bool) (iq : IQStanza),
      iq.subtype = IqType.get ∨ iq.subtype = IqType.set →
      iq.extensions = [] →
      notifyIqHandlers st oracle iq =
        (st, [IqEvent.sendError iq.origin iq.id StanzaErrorType.typeCancel
          StanzaError.featureNotImplemented])) ∧
    (∀ (st : IqState) (oracle : Nat → IQStanza → Bool) (iq : IQStanza),
      iq.subtype = IqType.get ∨ iq.subtype = IqType.set →
      iq.extensions ≠ [] →
      notifyIqHandlers st oracle iq =
        (st,
          (((iq.extensions.map (handlersFor st.iqExtHandlers)).flatten.takeWhile
              (fun h => ! oracle h iq) ++
            ((iq.extensions.map (handlersFor st.iqExtHandlers)).flatten.dropWhile
              (fun h => ! oracle h iq)).take 1).map
            (fun h => IqEvent.askedHandleIq h iq)) ++
          (if (iq.extensions.map (handlersFor st.iqExtHandlers)).flatten.any
              (fun h => oracle h iq) then []
           else [IqEvent.sendError iq.origin iq.id StanzaErrorType.typeCancel
             StanzaError.serviceUnavailable]))) := by
  constructor
  · intro st oracle iq hsub hext
    rw [notifyIqHandlers_fallthrough st oracle iq hsub]
    unfold notifyIqRest
    rw [if_pos hext, if_pos hsub]
  · intro st oracle iq hsub hext
    rw [notifyIqHandlers_fallthrough st oracle iq hsub,
      notifyIqRest_eq st oracle iq hext]
    by_cases hany : ((iq.extensions.map (handlersFor st.iqExtHandlers)).flatten.any
        (fun h => oracle h iq) : Bool) = true
    · have hc : ¬ (¬ (askSeq oracle iq
            ((iq.extensions.map (handlersFor st.iqExtHandlers)).flatten)).2 ∧
          (iq.subtype = IqType.get ∨ iq.subtype = IqType.set)) := by
        rw [askSeq_snd]
        simp [hany]
      rw [if_neg hc, if_pos hany, askSeq_fst]
      simp
    · have hc : (¬ (askSeq oracle iq
            ((iq.extensions.map (handlersFor st.iqExtHandlers)).flatten)).2 ∧
          (iq.subtype = IqType.get ∨ iq.subtype = IqType.set)) := by
        rw [askSeq_snd]
        exact ⟨by simpa using hany, hsub⟩
      rw [if_pos hc, if_neg hany, askSeq_fst]

theorem checkQueueAux_spec (handled : Int) (resend : Bool) (q : List (Nat × Bytes)) :
    checkQueueAux handled resend q =
      (q.filter (fun p => decide (handled < (p.1 : Int))),
       if resend then (q.filter (fun p => decide (handled < (p.1 : Int)))).map Prod.snd
       else []) := by
  induction q with
  | nil => cases resend <;> simp [checkQueueAux]
  | cons p rest ih =>
    obtain ⟨k, t⟩ := p
    by_cases hk : (k : Int) ≤ handled
    · have hk2 : ¬ handled < (k : Int) := by omega
      simp only [checkQueueAux, ih, if_pos hk, List.filter_cons]
      simp [hk2]
    · have hk2 : handled < (k : Int) := by omega
      cases hr : resend <;>
        simp_all [checkQueueAux, ih, List.filter_cons, hk2]

/-- C6: `checkQueue(handled, resend)` leaves everything unchanged when
stream management is not enabled or `handled` is negative; otherwise
exactly the entries with key at most `handled` are purged, and when
`resend` is set the surviving entries (key greater than `handled`) are
re-sent in queue (ascending key) order while staying in the queue
under their original keys, with `m_smSent` untouched. -/
theorem checkQueue_purges_and_resends :
    (∀ (st : SMState) (handled : Int) (resend : Bool),
      ¬ st.smEnabled ∨ handled < 0 → checkQueue st handled resend = (st, [])) ∧
    (∀ (st : SMState) (handled : Int) (resend : Bool),
      st.smEnabled → 0 ≤ handled →
      checkQueue st handled resend =
        ({ st with smQueue := st.smQueue.filter (fun p => decide (handled < (p.1 : Int))) },
         if resend then
           (st.smQueue.filter (fun p => decide (handled < (p.1 : Int)))).map Prod.snd
         else []) ∧
      (checkQueue st handled resend).1.smSent = st.smSent ∧
      (st.smQueue.Pairwise (fun a b => a.1 < b.1) →
        (checkQueue st handled resend).1.smQueue.Pairwise (fun a b => a.1 < b.1))) := by
  constructor
  · intro st handled resend hng
    unfold checkQueue
    rw [if_pos hng]
  · intro st handled resend hen hh
    have hng : ¬ (¬ st.smEnabled ∨ handled < 0) := by
      push_neg
      exact ⟨by simpa using hen, by omega⟩
    refine ⟨?_, ?_, ?_⟩
    · unfold checkQueue
      rw [if_neg hng, checkQueueAux_spec]
    · unfold checkQueue
      rw [if_neg hng, checkQueueAux_spec]
    · intro hpw
      unfold checkQueue
      rw [if_neg hng, checkQueueAux_spec]
      exact hpw.filter _

/-- C8: `send(const std::string&)` in state Connected: with compression
present and active the string goes to the compressor first, and the
compressed bytes go to encryption exactly when encryption is present
and active (else to the socket); with only encryption active the
string is encrypted and the ciphertext goes to the socket; with
neither active the string goes directly to the socket; outside state
Connected nothing is emitted — and whenever compression is present and
active, every byte string reaching the socket is the (optionally
encrypted) compressor output. -/
theorem send_compress_encrypt_order :
    (∀ (st : ChainState) (comp enc : Bytes → Bytes) (xml : Bytes),
      st.hasConnection → st.connState = 2 →
      st.hasCompression → st.compressionActive →
      sendXml st comp enc xml =
        ChainEvent.toCompressor xml ::
          (if st.hasEncryption ∧ st.encryptionActive then
            [ChainEvent.toEncryptor (comp xml), ChainEvent.toSocket (enc (comp xml))]
          else [ChainEvent.toSocket (comp xml)])) ∧
    (∀ (st : ChainState) (comp enc : Bytes → Bytes) (xml : Bytes),
      st.hasConnection → st.connState = 2 →
      ¬ (st.hasCompression ∧ st.compressionActive) →
      st.hasEncryption → st.encryptionActive →
      sendXml st comp enc xml =
        [ChainEvent.toEncryptor xml, ChainEvent.toSocket (enc xml)]) ∧
    (∀ (st : ChainState) (comp enc : Bytes → Bytes) (xml : Bytes),
      st.hasConnection → st.connState = 2 →
      ¬ (st.hasCompression ∧ st.compressionActive) →
      ¬ (st.hasEncryption ∧ st.encryptionActive) →
      sendXml st comp enc xml = [ChainEvent.toSocket xml]) ∧
    (∀ (st : ChainState) (comp enc : Bytes → Bytes) (xml : Bytes),
      ¬ (st.hasConnection ∧ st.connState = 2) →
      sendXml st comp enc xml = []) ∧
    (∀ (st : ChainState) (comp enc : Bytes → Bytes) (xml d : Bytes),
      st.hasCompression → st.compressionActive →
      ChainEvent.toSocket d ∈ sendXml st comp enc xml →
      (st.hasEncryption ∧ st.encryptionActive ∧ d = enc (comp xml)) ∨
      (¬ (st.hasEncryption ∧ st.encryptionActive) ∧ d = comp xml)) := by
  refine ⟨?_, ?_, ?_, ?_, ?_⟩
  · intro st comp enc xml hc hs hpc hca
    by_cases he : st.hasEncryption ∧ st.encryptionActive <;>
      simp [sendXml, handleCompressedData, handleEncryptedData, hc, hs, hpc, hca, he]
  · intro st comp enc xml hc hs hnc he1 he2
    simp [sendXml, handleEncryptedData, hc, hs, hnc, he1, he2]
  · intro st comp enc xml hc hs hnc hne
    simp [sendXml, hc, hs, hnc, hne]
  · intro st comp enc xml hg
    simp [sendXml, hg]
  · intro st comp enc xml d hpc hca hmem
    by_cases hg : st.hasConnection ∧ st.connState = 2
    · by_cases he : st.hasEncryption ∧ st.encryptionActive
      · refine Or.inl ⟨he.1, he.2, ?_⟩
        simp [sendXml, handleCompressedData, handleEncryptedData,
          hg.1, hg.2, hpc, hca, he] at hmem
        exact hmem
      · refine Or.inr ⟨he, ?_⟩
        simp [sendXml, handleCompressedData, handleEncryptedData,
          hg.1, hg.2, hpc, hca, he] at hmem
        exact hmem
    · simp [sendXml, hg] at hmem

/-- C9: `disconnect(reason)` with a connection in state at least
Connecting sends the closing `</stream:stream>` first unless the
reason is `ConnTlsFailed`, disconnects and cleans up the connection,
cleans up the present TLS and compression stages, resets the activity
flags and zeroes the stream-management counters, and calls
`onDisconnect(reason)` on every registered listener in order; without
a connection, or with one below Connecting, nothing changes and no
listener is notified. -/
theorem disconnect_behavior :
    (∀ (st : DiscoState) (reason : ConnectionError),
      st.conn = Option.none ∨ (∃ cs, st.conn = some cs ∧ cs < 1) →
      disconnect st reason = (st, [])) ∧
    (∀ (st : DiscoState) (reason : ConnectionError) (cs : Nat),
      st.conn = some cs → 1 ≤ cs →
      disconnect st reason =
        ({ st with encryptionActive := false, compressionActive := false, smSent := 0, smHandled := 0 },
         (if reason ≠ ConnectionError.connTlsFailed then [DiscoEvent.sendStreamClose]
          else []) ++
         [DiscoEvent.connDisconnect, DiscoEvent.connCleanup] ++
         (if st.hasEncryption then [DiscoEvent.encCleanup] else []) ++
         (if st.hasCompression then [DiscoEvent.compCleanup] else []) ++
         st.listeners.map (fun l => DiscoEvent.onDisconnect l reason))) := by
  constructor
  · intro st reason h
    rcases h with h | ⟨cs, hc, hlt⟩
    · simp [disconnect, h]
    · simp [disconnect, hc, hlt]
  · intro st reason cs hc hcs
    have h1 : ¬ cs < 1 := by omega
    simp only [disconnect, hc, if_neg h1]

/-- C10: for every selected mechanism other than SCRAM-SHA-1 and
SCRAM-SHA-1-PLUS, `processSASLSuccess` accepts every payload
whatsoever; and the DIGEST-MD5 final challenge is answered with an
empty `<response/>` without any verification as soon as the decoded
challenge starts with `rspauth` — server authentication is checked
only for the SCRAM mechanisms. -/
theorem sasl_success_unverified :
    (∀ (ctx : SaslCtx) (payload : Bytes),
      ctx.selectedMech ≠ SaslMech.scramSha1 →
      ctx.selectedMech ≠ SaslMech.scramSha1Plus →
      processSASLSuccess ctx payload = true) ∧
    (∀ (ctx : SaslCtx) (cnonce decoded : Bytes),
      List.take 7 decoded = ascii "rspauth" →
      digestMd5Challenge ctx cnonce decoded = some Option.none) ∧
    (∀ (ctx : SaslCtx) (cnonce challenge : Bytes),
      ctx.selectedMech = SaslMech.digestMd5 →
      List.take 7 (decode64 challenge) = ascii "rspauth" →
      processSASLChallenge ctx cnonce challenge = (ctx, some Option.none)) := by
  refine ⟨?_, ?_, ?_⟩
  · intro ctx payload h1 h2
    have hn : ¬ (ctx.selectedMech = SaslMech.scramSha1 ∨
        ctx.selectedMech = SaslMech.scramSha1Plus) := by
      simp [h1, h2]
    simp [processSASLSuccess, hn]
  · intro ctx cnonce decoded h
    simp [digestMd5Challenge, h]
  · intro ctx cnonce challenge hm h
    simp [processSASLChallenge, hm, digestMd5Challenge, h]

/-- C1: for the SCRAM mechanisms, `processSASLChallenge` parses the
server-first message and stores
`ServerSignature = HMAC(HMAC(Hi(password, salt, iter), "Server Key"),
AuthMessage)`; `processSASLSuccess` then accepts exactly the payloads
whose base64 decoding has at least 3 characters and whose remainder
after the 2-character `v=` prefix decodes to the stored signature; on
the RFC 5802 paragraph 5 example the stored signature is the decoding
of `rmF9pqV8S7suAoZWja4dJRkFsKQ=`, the matching payload is accepted
and a flipped payload is rejected. -/
theorem scram_server_signature_verified :
    (∀ (ctx : SaslCtx) (decoded snonce salt : Bytes) (iter : Int),
      parseServerFirst decoded = some (snonce, salt, iter) →
      scramChallenge ctx decoded =
        (let saltedPwd := hi ctx.password salt iter.toNat
         let ck := hmac saltedPwd (ascii "Client Key")
         let cfinal := (if ctx.selectedMech = SaslMech.scramSha1Plus then
             ascii "c=" ++ encode64 (ctx.gs2Header ++ ctx.channelBinding)
           else ascii "c=biws") ++ ascii ",r=" ++ snonce
         let authMessage := ctx.clientFirstMessageBare ++ ascii "," ++ decoded ++
           ascii "," ++ cfinal
         ({ ctx with serverSignature := hmac (hmac saltedPwd (ascii "Server Key")) authMessage },
          some (encode64 (cfinal ++ ascii ",p=" ++
            encode64 (List.zipWith (fun a b => a ^^^ b) ck
              (hmac (sha1 ck) authMessage))))))) ∧
    (∀ (ctx : SaslCtx) (payload : Bytes),
      ctx.selectedMech = SaslMech.scramSha1 ∨ ctx.selectedMech = SaslMech.scramSha1Plus →
      (processSASLSuccess ctx payload = true ↔
        3 ≤ (decode64 payload).length ∧
        decode64 (List.drop 2 (decode64 payload)) = ctx.serverSignature)) ∧
    ((scramChallenge rfcCtx rfcServerFirst).1.serverSignature =
        decode64 (ascii "rmF9pqV8S7suAoZWja4dJRkFsKQ=") ∧
      processSASLSuccess (scramChallenge rfcCtx rfcServerFirst).1
        (encode64 (ascii "v=rmF9pqV8S7suAoZWja4dJRkFsKQ=")) = true ∧
      processSASLSuccess (scramChallenge rfcCtx rfcServerFirst).1
        (encode64 (ascii "v=rnF9pqV8S7suAoZWja4dJRkFsKQ=")) = false) := by
  refine ⟨?_, ?_, ?_⟩
  · intro ctx decoded snonce salt iter hp
    simp only [scramChallenge, hp, saslprep]
  · intro ctx payload hm
    rw [processSASLSuccess, if_pos hm]
    show (if (decode64 payload).length < 3 ∨
        decode64 (List.drop 2 (decode64 payload)) ≠ ctx.serverSignature then false
      else true) = true ↔ _
    split_ifs with hcond
    · simp only [false_iff]
      rintro ⟨hlen, heq⟩
      rcases hcond with hc | hc
      · omega
      · exact hc heq
    · push_neg at hcond
      simp only [true_iff]
      exact ⟨by omega, hcond.2⟩
  · have hp : parseServerFirst rfcServerFirst =
        some (ascii "fyko+d2lbbFgONRv9qkxdawL3rfcNHYJY1ZVvWVs7j", rfcSalt, (4096 : Int)) := by
      decide
    have hb : hi pencilKey rfcSalt ((4096 : Int).toNat) =
        [29, 150, 238, 58, 82, 155, 90, 95, 158, 71, 192, 31, 34, 154, 44, 184,
          166, 225, 95, 125] := hi_rfc
    have hctx : (scramChallenge rfcCtx rfcServerFirst).1 =
        { rfcCtx with serverSignature := decode64 (ascii "rmF9pqV8S7suAoZWja4dJRkFsKQ=") } := by
      simp only [scramChallenge, hp, saslprep, rfcCtx]
      rw [hb]
      congr 1
    refine ⟨?_, ?_, ?_⟩
    · rw [hctx]
    · rw [hctx]
      decide!
    · rw [hctx]
      decide!

/-- Closed instance of the C1 theorem: its server-first parsing
hypothesis discharged on a minimal message, its mechanism hypothesis
discharged on the RFC example context. -/
theorem scram_server_signature_verified_witness :
    (parseServerFirst (ascii "r=a,s=,i=1") = some (ascii "a", [], (1 : Int)) ∧
      (scramChallenge rfcCtx (ascii "r=a,s=,i=1")).1.serverSignature =
        hmac (hmac (hi rfcCtx.password [] ((1 : Int).toNat)) (ascii "Server Key"))
          (rfcCtx.clientFirstMessageBare ++ ascii "," ++ ascii "r=a,s=,i=1" ++
            ascii "," ++ (ascii "c=biws" ++ ascii ",r=" ++ ascii "a"))) ∧
    ((rfcCtx.selectedMech = SaslMech.scramSha1 ∨
        rfcCtx.selectedMech = SaslMech.scramSha1Plus) ∧
      (processSASLSuccess rfcCtx (ascii "x") = true ↔
        3 ≤ (decode64 (ascii "x")).length ∧
        decode64 (List.drop 2 (decode64 (ascii "x"))) = rfcCtx.serverSignature)) :=
  ⟨⟨by decide,
    congrArg (fun p => p.1.serverSignature)
      (scram_server_signature_verified.1 rfcCtx (ascii "r=a,s=,i=1") (ascii "a") [] 1
        (by decide))⟩,
   Or.inl rfl,
   scram_server_signature_verified.2.1 rfcCtx (ascii "x") (Or.inl rfl)⟩

/-- Closed instance of the C4 theorem, its hypotheses discharged on
concrete states and stanzas. -/
theorem iq_id_correlation_witness :
    ((wIqGet.subtype = IqType.set ∨ wIqGet.subtype = IqType.get) ∧
      mapFind (sendIqWithHandler wIqState wIqGet (some 5) 7 true).1.iqIDHandlers
          (sendIqWithHandler wIqState wIqGet (some 5) 7 true).2.id = some ⟨5, 7, true⟩ ∧
      (sendIqWithHandler wIqState wIqGet (some 5) 7 true).2.id =
        (if wIqGet.id = [] then wIqState.uniqueBaseId ++ hex8 (wIqState.nextId + 1)
         else wIqGet.id)) ∧
    (mapFind wIqState2.iqIDHandlers wIqResult.id = some ⟨5, 7, false⟩ ∧
      (wIqResult.subtype = IqType.result ∨ wIqResult.subtype = IqType.error) ∧
      notifyIqHandlers wIqState2 wOracle wIqResult =
        ({ wIqState2 with iqIDHandlers := mapErase wIqState2.iqIDHandlers wIqResult.id },
          [IqEvent.handleIqID 5 wIqResult 7]) ∧
      mapFind (mapErase wIqState2.iqIDHandlers wIqResult.id) wIqResult.id = Option.none) ∧
    IqEvent.handleIqID 5 wIqSet 7 ∉ (notifyIqHandlers wIqState2 wOracle wIqSet).2 :=
  ⟨⟨Or.inr rfl, iq_id_correlation.1 wIqState wIqGet 5 7 true (Or.inr rfl)⟩,
   ⟨by decide, Or.inl rfl,
    iq_id_correlation.2.1 wIqState2 wOracle wIqResult ⟨5, 7, false⟩ (by decide) (Or.inl rfl)⟩,
   iq_id_correlation.2.2 wIqState2 wOracle wIqSet ⟨5, 7, false⟩ (by decide) (Or.inr rfl)
     5 wIqSet 7⟩

/-- Closed instance of the C5 theorem, its hypotheses discharged on
concrete states and stanzas. -/
theorem iq_unhandled_reply_witness :
    ((wIqGet.subtype = IqType.get ∨ wIqGet.subtype = IqType.set) ∧
      wIqGet.extensions = [] ∧
      notifyIqHandlers wIqState wOracle wIqGet =
        (wIqState, [IqEvent.sendError wIqGet.origin wIqGet.id StanzaErrorType.typeCancel
          StanzaError.featureNotImplemented])) ∧
    (wIqExt.extensions ≠ [] ∧
      notifyIqHandlers wIqState3 wOracle wIqExt =
        (wIqState3,
          (((wIqExt.extensions.map (handlersFor wIqState3.iqExtHandlers)).flatten.takeWhile
              (fun h => ! wOracle h wIqExt) ++
            ((wIqExt.extensions.map (handlersFor wIqState3.iqExtHandlers)).flatten.dropWhile
              (fun h => ! wOracle h wIqExt)).take 1).map
            (fun h => IqEvent.askedHandleIq h wIqExt)) ++
          (if (wIqExt.extensions.map (handlersFor wIqState3.iqExtHandlers)).flatten.any
              (fun h => wOracle h wIqExt) then []
           else [IqEvent.sendError wIqExt.origin wIqExt.id StanzaErrorType.typeCancel
             StanzaError.serviceUnavailable]))) :=
  ⟨⟨Or.inl rfl, rfl, iq_unhandled_reply.1 wIqState wOracle wIqGet (Or.inl rfl) rfl⟩,
   by decide, iq_unhandled_reply.2 wIqState3 wOracle wIqExt (Or.inl rfl) (by decide)⟩

/-- Closed instance of the C6 theorem, its hypotheses discharged on
concrete queues. -/
theorem checkQueue_purges_and_resends_witness :
    ((¬ wSM0.smEnabled ∨ (0 : Int) < 0) ∧ checkQueue wSM0 0 true = (wSM0, [])) ∧
    (wSM.smEnabled ∧ (0 : Int) ≤ 1 ∧
      (checkQueue wSM 1 true =
        ({ wSM with smQueue := wSM.smQueue.filter (fun p => decide ((1 : Int) < (p.1 : Int))) },
         if true then
           (wSM.smQueue.filter (fun p => decide ((1 : Int) < (p.1 : Int)))).map Prod.snd
         else []) ∧
      (checkQueue wSM 1 true).1.smSent = wSM.smSent ∧
      (wSM.smQueue.Pairwise (fun a b => a.1 < b.1) →
        (checkQueue wSM 1 true).1.smQueue.Pairwise (fun a b => a.1 < b.1)))) :=
  ⟨⟨by decide, checkQueue_purges_and_resends.1 wSM0 0 true (by decide)⟩,
   by decide, by decide, checkQueue_purges_and_resends.2 wSM 1 true (by decide) (by decide)⟩

/-- Closed instance of the C8 theorem, all five parts discharged on
concrete chain states. -/
theorem send_compress_encrypt_order_witness :
    (sendXml wCh wComp wEnc (ascii "x") =
      ChainEvent.toCompressor (ascii "x") ::
        (if wCh.hasEncryption ∧ wCh.encryptionActive then
          [ChainEvent.toEncryptor (wComp (ascii "x")),
            ChainEvent.toSocket (wEnc (wComp (ascii "x")))]
        else [ChainEvent.toSocket (wComp (ascii "x"))])) ∧
    (sendXml wCh2 wComp wEnc (ascii "x") =
      [ChainEvent.toEncryptor (ascii "x"), ChainEvent.toSocket (wEnc (ascii "x"))]) ∧
    (sendXml wCh3 wComp wEnc (ascii "x") = [ChainEvent.toSocket (ascii "x")]) ∧
    (sendXml wCh0 wComp wEnc (ascii "x") = []) ∧
    ((wCh.hasEncryption ∧ wCh.encryptionActive ∧
        wEnc (wComp (ascii "x")) = wEnc (wComp (ascii "x"))) ∨
      (¬ (wCh.hasEncryption ∧ wCh.encryptionActive) ∧
        wEnc (wComp (ascii "x")) = wComp (ascii "x"))) :=
  ⟨send_compress_encrypt_order.1 wCh wComp wEnc (ascii "x")
     (by decide) (by decide) (by decide) (by decide),
   send_compress_encrypt_order.2.1 wCh2 wComp wEnc (ascii "x")
     (by decide) (by decide) (by decide) (by decide) (by decide),
   send_compress_encrypt_order.2.2.1 wCh3 wComp wEnc (ascii "x")
     (by decide) (by decide) (by decide) (by decide),
   send_compress_encrypt_order.2.2.2.1 wCh0 wComp wEnc (ascii "x") (by decide),
   send_compress_encrypt_order.2.2.2.2 wCh wComp wEnc (ascii "x")
     (wEnc (wComp (ascii "x"))) (by decide) (by decide) (by decide)⟩

/-- Closed instance of the C9 theorem, its hypotheses discharged on
concrete disconnect states. -/
theorem disconnect_behavior_witness :
    ((wD0.conn = Option.none ∨ (∃ cs, wD0.conn = some cs ∧ cs < 1)) ∧
      disconnect wD0 ConnectionError.connStreamVersionError = (wD0, [])) ∧
    (wD.conn = some 2 ∧ 1 ≤ 2 ∧
      disconnect wD ConnectionError.connStreamVersionError =
        ({ wD with encryptionActive := false, compressionActive := false, smSent := 0, smHandled := 0 },
         (if ConnectionError.connStreamVersionError ≠ ConnectionError.connTlsFailed then
            [DiscoEvent.sendStreamClose] else []) ++
         [DiscoEvent.connDisconnect, DiscoEvent.connCleanup] ++
         (if wD.hasEncryption then [DiscoEvent.encCleanup] else []) ++
         (if wD.hasCompression then [DiscoEvent.compCleanup] else []) ++
         wD.listeners.map (fun l =>
           DiscoEvent.onDisconnect l ConnectionError.connStreamVersionError))) :=
  ⟨⟨Or.inl rfl,
    disconnect_behavior.1 wD0 ConnectionError.connStreamVersionError (Or.inl rfl)⟩,
   rfl, by decide,
   disconnect_behavior.2 wD ConnectionError.connStreamVersionError 2 rfl (by decide)⟩

/-- Closed instance of the C10 theorem, its hypotheses discharged on
concrete contexts and challenges. -/
theorem sasl_success_unverified_witness :
    (({ rfcCtx with selectedMech := SaslMech.plain } : SaslCtx).selectedMech ≠ SaslMech.scramSha1 ∧
      ({ rfcCtx with selectedMech := SaslMech.plain } : SaslCtx).selectedMech ≠ SaslMech.scramSha1Plus ∧
      processSASLSuccess { rfcCtx with selectedMech := SaslMech.plain } (ascii "anything") = true) ∧
    (List.take 7 (ascii "rspauth123") = ascii "rspauth" ∧
      digestMd5Challenge rfcCtx [] (ascii "rspauth123") = some Option.none) ∧
    (({ rfcCtx with selectedMech := SaslMech.digestMd5 } : SaslCtx).selectedMech = SaslMech.digestMd5 ∧
      List.take 7 (decode64 (encode64 (ascii "rspauth123"))) = ascii "rspauth" ∧
      processSASLChallenge { rfcCtx with selectedMech := SaslMech.digestMd5 } []
        (encode64 (ascii "rspauth123")) =
        ({ rfcCtx with selectedMech := SaslMech.digestMd5 }, some Option.none)) :=
  ⟨⟨by decide, by decide,
    sasl_success_unverified.1 { rfcCtx with selectedMech := SaslMech.plain } (ascii "anything")
      (by decide) (by decide)⟩,
   ⟨by decide, sasl_success_unverified.2.1 rfcCtx [] (ascii "rspauth123") (by decide)⟩,
   by decide, by decide,
   sasl_success_unverified.2.2 { rfcCtx with selectedMech := SaslMech.digestMd5 } []
     (encode64 (ascii "rspauth123")) (by decide) (by decide)⟩

end Gloox
